import Mathlib

/-!
# stagetimevr-video-api: a shallow embedding of the gateway and its properties

The Go program is a small HTTP gateway (`cmd/main.go`) in front of a video
endpoint provider (`internal/videoendpoint`), a search provider
(`internal/searchfetcher`) and a URL shortener (`internal/urlshortener`).

Conventions of the embedding

* A Go `string` is a Lean `String` (the sequence of runes the Go string decodes to).
* A Go `error` is an `Option String`: `none` is `nil`, `some msg` carries `Error()`.
  A Go function returning `(T, error)` returns the pair `T × Option String`, so that
  a caller that looks at the value before the error (as `videoRequestHandler` does)
  sees what the Go caller sees.
* Everything outside the process (the network, the remote services) is a state `W`
  threaded through every outgoing call. The standard library entry points whose
  result the program only consumes (`url.Parse`, `http.Client.Do`, the JSON
  decoders) are fields of `Env`; they are parameters of every definition and no
  theorem assumes anything about them beyond what its hypotheses say.
* `Sys.calls` records, in order, the collaborators a handler invokes. It is the only
  instrumentation added to the code; it lets a theorem say that something was not
  called.
* Writes to the process log and to standard output (`log.Printf`, `fmt.Println`,
  `fmt.Printf`), per-call `context` deadlines and `defer`red `Close`/`cancel` calls
  have no effect on any value the program computes and are left out.
-/

namespace stagetimevr

/-! ## net/url and net/http as seen by the program -/

/-- Observations of a parsed `*url.URL` that the program makes: the fields `Scheme` and
`Host`, and the results of the methods `Hostname()`, `Query()` and `String()`.
`Query()` is a Go `map[string][]string`; a key that is absent has no values. -/
structure URL where
  Scheme : String
  Host : String
  Hostname : String
  Query : String → List String
  String : String

/-- Go `url.Values.Get`: the first value of the key, the empty string without one. -/
def Values.Get (v : String → List String) (key : String) : String :=
  match v key with
  | [] => ""
  | first :: _ => first

/-- Content of a response body stream: the bytes that can be read from it and the
error, if any, that ends the reading instead of a clean end of stream. -/
structure Body where
  data : String
  err : Option String

/-- Go `io.ReadAll` on a body. -/
def Body.ReadAll (b : Body) : String × Option String :=
  (b.data, b.err)

/-- Go `http.Request`, outgoing or incoming: only the parts the program sets or reads. -/
structure Request where
  Method : String
  URL : String
  Header : List (String × String)
  Body : String

/-- Go `http.Response`: only the parts the program reads. -/
structure Response where
  StatusCode : Nat
  Body : Body

/-- Go `http.Client`: only the timeout, in seconds (0 is none). -/
structure Client where
  Timeout : Nat

/-- Go `http.DefaultClient`. -/
def DefaultClient : Client := ⟨0⟩

/-- Go `videoendpoint.VideoParameters`. -/
structure VideoParameters where
  ID : String
deriving DecidableEq

/-- Go `videoendpoint.ReturnedEndpoint`. -/
structure ReturnedEndpoint where
  Endpoint : String
deriving DecidableEq

/-- Go `searchfetcher.SearchQuery`. -/
structure SearchQuery where
  Search : String
deriving DecidableEq

/-- Go `urlshortener.shlinkRequest`. -/
structure shlinkRequest where
  LongUrl : String
  Slug : String
  ValidUntil : String
  Domain : String
deriving DecidableEq

/-- Go `urlshortener.shlinkResponse`. -/
structure shlinkResponse where
  ShortUrl : String
deriving DecidableEq

/-- The standard library calls whose outcome the program consumes, over the outside
world `W`. `Do` is `(*http.Client).Do`; the `decode…` fields are
`json.NewDecoder(body).Decode(&v)` at the four types the program decodes into;
`marshalShlinkRequest` is `json.Marshal`; `sprintBody` is what the verb `%v` prints for
a response body reader; `jsonShortEscapes` says whether `encoding/json` writes the
backspace and form-feed characters as a two-character escape (Go 1.22 and later) or as
a `u00XX` escape (earlier releases). -/
structure Env (W : Type) where
  urlParse : String → Except String URL
  Do : Client → Request → W → Except String Response × W
  decodeVideoParameters : String → Except String VideoParameters
  decodeSearchQuery : String → Except String SearchQuery
  decodeReturnedEndpoints : Body → Except String (List ReturnedEndpoint)
  decodeShlinkResponse : Body → Except String shlinkResponse
  marshalShlinkRequest : shlinkRequest → Except String String
  sprintBody : Body → String
  jsonShortEscapes : Bool

/-- Go `http.Header.Add`: append a value for the key. Header names are kept as the
source spells them. -/
def HeaderAdd (h : List (String × String)) (key value : String) : List (String × String) :=
  h ++ [(key, value)]

/-- Go `http.Header.Set`: replace the values of the key by one value. -/
def HeaderSet (h : List (String × String)) (key value : String) : List (String × String) :=
  h.filter (fun kv => kv.1 != key) ++ [(key, value)]

/-- Go `http.NewRequest` for a valid method: it fails exactly when `url.Parse` fails. -/
def NewRequest {W : Type} (env : Env W) (method url body : String) : Except String Request :=
  match env.urlParse url with
  | .error e => .error e
  | .ok _ => .ok { Method := method, URL := url, Header := [], Body := body }

/-- Go `(*http.Client).Head`: a `HEAD` request for the URL, sent with `Do`. -/
def Client.Head {W : Type} (env : Env W) (c : Client) (url : String) (w : W) :
    Except String Response × W :=
  match NewRequest env "HEAD" url "" with
  | .error e => (.error e, w)
  | .ok req => env.Do c req w

/-- Go `http.ResponseWriter` of the server: the header map the handler edits, whether
the status line has been written, the status and the header sent with it, and the
body written so far. -/
structure ResponseWriter where
  header : List (String × String)
  wroteHeader : Bool
  status : Nat
  sentHeader : List (String × String)
  body : String
deriving DecidableEq

/-- A response writer nothing has been written to. -/
def ResponseWriter.fresh : ResponseWriter := ⟨[], false, 0, [], ""⟩

/-- Go `ResponseWriter.WriteHeader`: the first call sends the status and the header map
as it stands; a later call changes nothing. -/
def ResponseWriter.WriteHeader (w : ResponseWriter) (code : Nat) : ResponseWriter :=
  if w.wroteHeader then w
  else { w with wroteHeader := true, status := code, sentHeader := w.header }

/-- Go `ResponseWriter.Write`: sends status 200 first when no status was written. -/
def ResponseWriter.Write (w : ResponseWriter) (data : String) : ResponseWriter :=
  let w1 := if w.wroteHeader then w else w.WriteHeader 200
  { w1 with body := w1.body ++ data }

/-- Go `http.Error`: set the plain-text headers, write the status, write the message
and a newline. (The handlers set no `Content-Length`, so its removal is a no-op.) -/
def Error (w : ResponseWriter) (error : String) (code : Nat) : ResponseWriter :=
  let h := HeaderSet (HeaderSet w.header "Content-Type" "text/plain; charset=utf-8")
    "X-Content-Type-Options" "nosniff"
  (({ w with header := h } : ResponseWriter).WriteHeader code).Write (error ++ "\n")

/-! ## encoding/json: writing a string -/

/-- One rune of a JSON string as `encoding/json` writes it with HTML escaping on (the
default of `json.Encoder`). -/
def jsonEscape (shortEscapes : Bool) (c : Char) : List Char :=
  if c = '"' ∨ c = '\\' then ['\\', c]
  else if c = '\n' then ['\\', 'n']
  else if c = '\r' then ['\\', 'r']
  else if c = '\t' then ['\\', 't']
  else if shortEscapes ∧ c = Char.ofNat 8 then ['\\', 'b']
  else if shortEscapes ∧ c = Char.ofNat 12 then ['\\', 'f']
  else if c.toNat < 32 ∨ c = '<' ∨ c = '>' ∨ c = '&' then
    ['\\', 'u', '0', '0', Nat.digitChar (c.toNat / 16), Nat.digitChar (c.toNat % 16)]
  else if c.toNat = 8232 then ['\\', 'u', '2', '0', '2', '8']
  else if c.toNat = 8233 then ['\\', 'u', '2', '0', '2', '9']
  else [c]

/-- A Go string as a JSON string literal. -/
def jsonString (shortEscapes : Bool) (s : String) : String :=
  String.mk (['"'] ++ (s.data.map (jsonEscape shortEscapes)).flatten ++ ['"'])

/-- What `json.NewEncoder(w).Encode(v)` writes for a string `v`. -/
def encodeString (shortEscapes : Bool) (v : String) : String :=
  jsonString shortEscapes v ++ "\n"

/-- What `json.NewEncoder(w).Encode(m)` writes for a one-entry `map[string]string`. -/
def encodeMap1 (shortEscapes : Bool) (key value : String) : String :=
  "\x7b" ++ jsonString shortEscapes key ++ ":" ++ jsonString shortEscapes value ++ "\x7d\n"

/-! ## The collaborators a handler invokes -/

/-- One invocation of a collaborator, as recorded in `Sys.calls`. -/
inductive Call where
  | CheckIfShortenedURLExists (slug : String)
  | GetVideoEndpoint (index : Nat) (params : VideoParameters)
  | GetSearchResults (index : Nat) (query : SearchQuery)
  | ExtractExpiryParameter (longURL : String)
  | ShortLinkURLRequest (longUrl slug validUntil : String)
  | ShortenUrl (request : shlinkRequest)
deriving DecidableEq

/-- State threaded through a handler: the outside world and the calls made so far. -/
structure Sys (W : Type) where
  world : W
  calls : List Call

/-- Append one call to the record. -/
def Sys.record {W : Type} (s : Sys W) (c : Call) : Sys W :=
  { s with calls := s.calls ++ [c] }

/-- Go interface `videoendpoint.VideoEndpointRetriever`: its one method. -/
abbrev VideoEndpointRetriever (W : Type) := VideoParameters → W → (String × Option String) × W

/-- Go interface `searchfetcher.SearchResultsRetriever`: its one method. -/
abbrev SearchResultsRetriever (W : Type) := SearchQuery → W → (String × Option String) × W

/-- Go `urlshortener.URLShortener`. -/
structure URLShortener where
  serverEndpoint : String
  apiKey : String

/-- Go `main.SearchFetcherService`. -/
structure SearchFetcherService (W : Type) where
  apis : List (SearchResultsRetriever W)

/-- Go `main.VideoEndpointService`. -/
structure VideoEndpointService (W : Type) where
  apis : List (VideoEndpointRetriever W)
  urlshortener : URLShortener

/-! ## fmt: `Sscanf(str, "%d", &int64)`

The scanner follows `fmt/scan.go` of Go 1.22. -/

namespace fmt

/-- Errors `fmt.Sscanf` returns for the format `%d` and an `*int64` operand. -/
inductive ScanError where
  | eof
  | unexpectedNewline
  | expectedInteger
  | outOfRange (tok : String)
deriving DecidableEq

/-- Text of a scan error (`Error()`). -/
def ScanError.Error : ScanError → String
  | .eof => "EOF"
  | .unexpectedNewline => "unexpected newline"
  | .expectedInteger => "expected integer"
  | .outOfRange tok => "strconv.ParseInt: parsing \"" ++ tok ++ "\": value out of range"

/-- Go `fmt.hugeWid`: the scanner reads at most this many runes of its input. -/
def hugeWid : Nat := 2 ^ 30

/-- Go `fmt.space`: the ranges of space runes. -/
def space : List (Nat × Nat) :=
  [(0x0009, 0x000d), (0x0020, 0x0020), (0x0085, 0x0085), (0x00a0, 0x00a0), (0x1680, 0x1680),
   (0x2000, 0x200a), (0x2028, 0x2029), (0x202f, 0x202f), (0x205f, 0x205f), (0x3000, 0x3000)]

/-- The range loop of Go `fmt.isSpace`. -/
def isSpaceIn (rx : Nat) : List (Nat × Nat) → Bool
  | [] => false
  | rng :: rest => if rx < rng.1 then false else if rx ≤ rng.2 then true else isSpaceIn rx rest

/-- Go `fmt.isSpace`. -/
def isSpace (r : Char) : Bool :=
  if r.toNat ≥ 2 ^ 16 then false else isSpaceIn r.toNat space

/-- Go `(*ss).SkipSpace` in `Sscanf` mode (a newline is not a space): the input left, or
the error raised. -/
def SkipSpace : List Char → Except ScanError (List Char)
  | [] => .ok []
  | r :: rest =>
    if r = '\r' ∧ rest.head? = some '\n' then SkipSpace rest
    else if r = '\n' then .error .unexpectedNewline
    else if !isSpace r then .ok (r :: rest)
    else SkipSpace rest

/-- Go `fmt.sign`. -/
def sign : List Char := ['+', '-']

/-- Go `fmt.decimalDigits`. -/
def decimalDigits : List Char := ['0', '1', '2', '3', '4', '5', '6', '7', '8', '9']

/-- The loop `for s.accept(digits) {}` of `scanNumber`: move the leading digits of the
input to the end of the token. Returns the token and the input left. -/
def acceptDigits : List Char → List Char → List Char × List Char
  | buf, [] => (buf, [])
  | buf, r :: rest =>
    if decimalDigits.contains r then acceptDigits (buf ++ [r]) rest else (buf, r :: rest)

/-- Value of a run of decimal digits. -/
def digitsValue (ds : List Char) : Nat :=
  ds.foldl (fun un c => 10 * un + (c.toNat - 48)) 0

/-- Go `strconv.ParseInt(tok, 10, 64)` on a token made of an optional sign and decimal
digits: the value, or the range error when it does not fit an `int64`. -/
def ParseInt (tok : List Char) : Except ScanError Int :=
  let neg : Bool := tok.head? = some '-'
  let s := if tok.head? = some '+' ∨ tok.head? = some '-' then tok.tail else tok
  let un := digitsValue s
  if !neg ∧ un ≥ 2 ^ 63 then .error (.outOfRange (String.mk tok))
  else if neg ∧ un > 2 ^ 63 then .error (.outOfRange (String.mk tok))
  else .ok (if neg then -(un : Int) else (un : Int))

/-- Go `(*ss).scanInt('d', 64)`: skip space, fail at the end of input, take an optional
sign, require one digit, take the digits that follow, convert. -/
def scanInt (input : List Char) : Except ScanError Int :=
  match SkipSpace input with
  | .error e => .error e
  | .ok [] => .error .eof
  | .ok (r :: rest) =>
    let signed := if sign.contains r then ([r], rest) else ([], r :: rest)
    match signed.2 with
    | [] => .error .eof
    | d :: rest1 =>
      if !decimalDigits.contains d then .error .expectedInteger
      else ParseInt (acceptDigits (signed.1 ++ [d]) rest1).1

/-- Go `fmt.Sscanf(str, "%d", &v)` with `v` an `int64`: the value stored in `v`, or the
error returned. `doScanf` skips space before the verb, `scanInt` scans the number;
input after the number is left unread and is not an error. -/
def Sscanf_d (str : String) : Except ScanError Int :=
  match SkipSpace (str.data.take hugeWid) with
  | .error e => .error e
  | .ok input => scanInt input

end fmt

/-! ## time: `time.Unix(sec, 0).UTC().Format(time.RFC3339)`

The date and clock arithmetic is that of `absDate`, `absClock` and `appendInt` in the
`time` package of Go 1.22. -/

namespace time

/-- Go `time.secondsPerDay`. -/
def secondsPerDay : Nat := 24 * 60 * 60

/-- Go `time.daysPer400Years`. -/
def daysPer400Years : Nat := 365 * 400 + 97

/-- Go `time.daysPer100Years`. -/
def daysPer100Years : Nat := 365 * 100 + 24

/-- Go `time.daysPer4Years`. -/
def daysPer4Years : Nat := 365 * 4 + 1

/-- Go `time.absoluteZeroYear`. -/
def absoluteZeroYear : Int := -292277022399

/-- Go `time.unixToInternal`. -/
def unixToInternal : Int := (1969 * 365 + 1969 / 4 - 1969 / 100 + 1969 / 400) * 86400

/-- Go `time.internalToAbsolute`, the value of
`-(absoluteZeroYear - 1) * 365.2425 * secondsPerDay`. -/
def internalToAbsolute : Int := 9223371966579724800

/-- Go `Time.abs` of `time.Unix(sec, 0).UTC()`: seconds since the absolute zero year, a
`uint64`. -/
def absOfUnix (sec : Int) : Nat :=
  ((sec + (unixToInternal + internalToAbsolute)) % 2 ^ 64).toNat

/-- Go `time.isLeap`. -/
def isLeap (year : Int) : Bool :=
  year % 4 == 0 && (year % 100 != 0 || year % 400 == 0)

/-- Go `time.daysBefore`. -/
def daysBefore : List Nat := [0, 31, 59, 90, 120, 151, 181, 212, 243, 273, 304, 334, 365]

/-- First half of Go `time.absDate`: the year and the zero-based day of the year. -/
def absYearDay (abs : Nat) : Int × Nat :=
  let d := abs / secondsPerDay
  let n := d / daysPer400Years
  let y := 400 * n
  let d := d - daysPer400Years * n
  let n := d / daysPer100Years
  let n := n - n / 4
  let y := y + 100 * n
  let d := d - daysPer100Years * n
  let n := d / daysPer4Years
  let y := y + 4 * n
  let d := d - daysPer4Years * n
  let n := d / 365
  let n := n - n / 4
  let y := y + n
  let d := d - 365 * n
  ((y : Int) + absoluteZeroYear, d)

/-- Second half of Go `time.absDate`: month (January is 1) and day of the month from
the zero-based day of the year. -/
def monthDay (leap : Bool) (yday : Nat) : Nat × Nat :=
  if leap && yday == 31 + 29 - 1 then (2, 29)
  else
    let day := if leap && yday > 31 + 29 - 1 then yday - 1 else yday
    let month := day / 31
    let stop := daysBefore.getD (month + 1) 0
    if day ≥ stop then (month + 2, day - stop + 1)
    else (month + 1, day - daysBefore.getD month 0 + 1)

/-- Go `time.absDate(abs, true)`: year, month, day. -/
def absDate (abs : Nat) : Int × Nat × Nat :=
  let yd := absYearDay abs
  let md := monthDay (isLeap yd.1) yd.2
  (yd.1, md.1, md.2)

/-- Go `time.absClock`: hour, minute, second. -/
def absClock (abs : Nat) : Nat × Nat × Nat :=
  let sec := abs % secondsPerDay
  let hour := sec / 3600
  let sec := sec - hour * 3600
  let min := sec / 60
  let sec := sec - min * 60
  (hour, min, sec)

/-- The unsigned part of Go `time.appendInt`: the decimal digits of `u`, padded with
zeros on the left to `width`. -/
def zeroPad (width : Nat) (u : Nat) : List Char :=
  List.replicate (width - (Nat.toDigits 10 u).length) '0' ++ Nat.toDigits 10 u

/-- Go `time.appendInt`. -/
def appendInt (x : Int) (width : Nat) : List Char :=
  if x < 0 then '-' :: zeroPad width (-x).toNat else zeroPad width x.toNat

/-- Go `time.Unix(sec, 0).UTC().Format(time.RFC3339)`. -/
def formatRFC3339 (sec : Int) : String :=
  let abs := absOfUnix sec
  let date := absDate abs
  let clock := absClock abs
  String.mk (appendInt date.1 4 ++ '-' :: appendInt date.2.1 2 ++ '-' :: appendInt date.2.2 2 ++
    'T' :: appendInt clock.1 2 ++ ':' :: appendInt clock.2.1 2 ++ ':' :: appendInt clock.2.2 2 ++
    ['Z'])

end time

/-! ## internal/urlshortener -/

/-- Go `(*URLShortener).ShortLinkURLRequest`. -/
def URLShortener.ShortLinkURLRequest {W : Type} (env : Env W) (u : URLShortener)
    (longUrl slug validUntil : String) : shlinkRequest × Option String :=
  match env.urlParse u.serverEndpoint with
  | .error err =>
    (⟨"", "", "", ""⟩,
      some ("failed to parse urlshortener hostname from env variable: " ++ err))
  | .ok urlShortenerEndpoint =>
    let domain := urlShortenerEndpoint.Hostname
    ({ LongUrl := longUrl, Slug := slug, ValidUntil := validUntil, Domain := domain }, none)

/-- Go `urlshortener.ExtractExpiryParameter`. -/
def ExtractExpiryParameter {W : Type} (env : Env W) (longURL : String) :
    String × Option String :=
  match env.urlParse longURL with
  | .error err => ("", some ("failed to parse URL: " ++ err))
  | .ok parsedURL =>
    let expireStr := Values.Get parsedURL.Query "expire"
    if expireStr = "" then ("", some "expire parameter not found")
    else
      match fmt.Sscanf_d expireStr with
      | .error err => ("", some ("error converting expire to int64: " ++ err.Error))
      | .ok expireUnix => (time.formatRFC3339 expireUnix, none)

/-- Go `(*URLShortener).ShortenUrl`. -/
def URLShortener.ShortenUrl {W : Type} (env : Env W) (u : URLShortener)
    (shlinkRequest : shlinkRequest) (w : W) : (String × Option String) × W :=
  match env.marshalShlinkRequest shlinkRequest with
  | .error err => (("", some ("failed to marshal request body: " ++ err)), w)
  | .ok requestBody =>
    match NewRequest env "POST" u.serverEndpoint requestBody with
    | .error err => (("", some ("failed to create request: " ++ err)), w)
    | .ok req =>
      let req1 : Request := { req with
        Header := HeaderSet (HeaderSet req.Header "Content-Type" "application/json")
          "X-Api-Key" u.apiKey }
      match env.Do DefaultClient req1 w with
      | (.error err, w1) => (("", some ("failed to send request: " ++ err)), w1)
      | (.ok resp, w1) =>
        if resp.StatusCode ≠ 200 then
          (("", some ("received non-200 response " ++ toString resp.StatusCode ++ ": " ++
            env.sprintBody resp.Body)), w1)
        else
          match env.decodeShlinkResponse resp.Body with
          | .error err => (("", some ("failed to decode response body: " ++ err)), w1)
          | .ok shlinkResponse => ((shlinkResponse.ShortUrl, none), w1)

/-- Go `(*URLShortener).CheckIfShortenedURLExists`. -/
def URLShortener.CheckIfShortenedURLExists {W : Type} (env : Env W) (u : URLShortener)
    (slug : String) (w : W) : (Bool × Option String) × W :=
  match NewRequest env "GET" (u.serverEndpoint ++ "/" ++ slug) "" with
  | .error err => ((false, some ("failed to create request: " ++ err)), w)
  | .ok req =>
    let req1 : Request := { req with Header := HeaderSet req.Header "X-Api-Key" u.apiKey }
    match env.Do DefaultClient req1 w with
    | (.error err, w1) => ((false, some ("failed to send request: " ++ err)), w1)
    | (.ok resp, w1) =>
      if resp.StatusCode = 404 then ((false, none), w1)
      else if resp.StatusCode = 200 then ((true, none), w1)
      else ((false, some ("received non-200 response: " ++ toString resp.StatusCode)), w1)

/-! ## internal/videoendpoint -/

/-- Go `videoendpoint.CheckEndpoint`. -/
def CheckEndpoint {W : Type} (env : Env W) (endpoint : String) (w : W) : Option String × W :=
  match env.urlParse endpoint with
  | .error err => (some ("invalid URL: " ++ err), w)
  | .ok parsedURL =>
    if parsedURL.Scheme ≠ "http" ∧ parsedURL.Scheme ≠ "https" then
      (some ("unsupported URL scheme: " ++ parsedURL.Scheme), w)
    else
      match Client.Head env ⟨5⟩ endpoint w with
      | (.error err, w1) => (some ("failed to reach endpoint: " ++ err), w1)
      | (.ok resp, w1) =>
        if resp.StatusCode < 200 ∨ resp.StatusCode ≥ 300 then
          (some ("endpoint returned non-success status code: " ++ toString resp.StatusCode), w1)
        else (none, w1)

/-- Go `videoendpoint.api1`. -/
structure api1 where
  Name : String
  key : String
  url : URL

/-- The loop `for _, endpoint := range possibleVideoEndpoints` of `api1.GetVideoEndpoint`
and the return after it. -/
def api1.firstValidEndpoint {W : Type} (env : Env W) :
    List ReturnedEndpoint → W → (String × Option String) × W
  | [], w => (("", some "no valid endpoints found"), w)
  | endpoint :: rest, w =>
    match CheckEndpoint env endpoint.Endpoint w with
    | (none, w1) => ((endpoint.Endpoint, none), w1)
    | (some _, w1) => api1.firstValidEndpoint env rest w1

/-- Go `(*api1).GetVideoEndpoint`. -/
def api1.GetVideoEndpoint {W : Type} (env : Env W) (a : api1) (params : VideoParameters)
    (w : W) : (String × Option String) × W :=
  let apiEndpoint := a.url.String ++ "?id=" ++ params.ID ++ "&filter=" ++ "audioandvideo"
  match NewRequest env "GET" apiEndpoint "" with
  | .error err => (("", some ("error creating request: " ++ err)), w)
  | .ok req =>
    let req1 : Request := { req with
      Header := HeaderAdd (HeaderAdd req.Header "x-rapidapi-key" a.key)
        "X-rapidapi-host" a.url.Host }
    match env.Do DefaultClient req1 w with
    | (.error err, w1) => (("", some ("error making request: " ++ err)), w1)
    | (.ok res, w1) =>
      match env.decodeReturnedEndpoints res.Body with
      | .error err => (("", some ("error decoding response: " ++ err)), w1)
      | .ok possibleVideoEndpoints => api1.firstValidEndpoint env possibleVideoEndpoints w1

/-! ## internal/searchfetcher -/

/-- Go `searchfetcher.api3`. -/
structure api3 where
  Name : String
  key : String
  url : URL

/-- Go `(*api3).GetSearchResults`. -/
def api3.GetSearchResults {W : Type} (env : Env W) (a : api3) (searchQuery : SearchQuery)
    (w : W) : (String × Option String) × W :=
  let apiEndpoint := a.url.String ++ "?q=" ++ searchQuery.Search
  match NewRequest env "GET" apiEndpoint "" with
  | .error err => (("", some ("error creating request: " ++ err)), w)
  | .ok req =>
    let req1 : Request := { req with
      Header := HeaderAdd (HeaderAdd req.Header "x-rapidapi-key" a.key)
        "X-rapidapi-host" a.url.Host }
    match env.Do DefaultClient req1 w with
    | (.error err, w1) => (("", some ("error making request: " ++ err)), w1)
    | (.ok res, w1) =>
      match res.Body.ReadAll with
      | (_, some err) => (("", some ("error reading response body: " ++ err)), w1)
      | (body, none) => ((body, none), w1)

/-! ## cmd/main.go: the fallback loops -/

/-- The `for _, retriever := range sfs.apis` loop of `SearchFetcherService.callRetrievers`,
from the retriever at position `index` on. -/
def SearchFetcherService.callRetrieversFrom {W : Type} (query : SearchQuery) :
    List (SearchResultsRetriever W) → Nat → Sys W → (String × Option String) × Sys W
  | [], _, s => (("", some "all APIs failed to retrieve search results"), s)
  | retriever :: rest, index, s =>
    let s1 := s.record (Call.GetSearchResults index query)
    let r := retriever query s1.world
    let s2 : Sys W := { s1 with world := r.2 }
    match r.1.2 with
    | none => ((r.1.1, none), s2)
    | some _ => SearchFetcherService.callRetrieversFrom query rest (index + 1) s2

/-- Go `(*SearchFetcherService).callRetrievers`. -/
def SearchFetcherService.callRetrievers {W : Type} (sfs : SearchFetcherService W)
    (query : SearchQuery) (s : Sys W) : (String × Option String) × Sys W :=
  SearchFetcherService.callRetrieversFrom query sfs.apis 0 s

/-- The `for _, retriever := range vs.apis` loop of `VideoEndpointService.callRetrievers`,
from the retriever at position `index` on. -/
def VideoEndpointService.callRetrieversFrom {W : Type} (params : VideoParameters) :
    List (VideoEndpointRetriever W) → Nat → Sys W → (String × Option String) × Sys W
  | [], _, s => (("", some "all APIs failed to retrieve the video endpoint"), s)
  | retriever :: rest, index, s =>
    let s1 := s.record (Call.GetVideoEndpoint index params)
    let r := retriever params s1.world
    let s2 : Sys W := { s1 with world := r.2 }
    match r.1.2 with
    | none => ((r.1.1, none), s2)
    | some _ => VideoEndpointService.callRetrieversFrom params rest (index + 1) s2

/-- Go `(*VideoEndpointService).callRetrievers`. -/
def VideoEndpointService.callRetrievers {W : Type} (vs : VideoEndpointService W)
    (params : VideoParameters) (s : Sys W) : (String × Option String) × Sys W :=
  VideoEndpointService.callRetrieversFrom params vs.apis 0 s

/-! ## cmd/main.go: the handlers -/

/-- Go `main.searchVideoHandler(searchFetcher)`: the handler it returns, run on a
request, a response writer and the state. -/
def searchVideoHandler {W : Type} (env : Env W) (searchFetcher : SearchFetcherService W)
    (r : Request) (w : ResponseWriter) (s : Sys W) : ResponseWriter × Sys W :=
  if r.Method ≠ "POST" then (Error w "Invalid request method" 405, s)
  else
    match env.decodeSearchQuery r.Body with
    | .error _ => (Error w "Invalid request body" 400, s)
    | .ok searchQuery =>
      let res := searchFetcher.callRetrievers searchQuery s
      match res.1.2 with
      | some err =>
        (Error w ("Failed to retrieve search results: " ++ err) 500, res.2)
      | none =>
        let w1 : ResponseWriter :=
          { w with header := HeaderSet w.header "Content-Type" "application/json" }
        (w1.Write (encodeString env.jsonShortEscapes res.1.1), res.2)

/-- Go `main.sendShortenedEndpointToClient`. -/
def sendShortenedEndpointToClient {W : Type} (env : Env W) (w : ResponseWriter)
    (endpoint : String) : ResponseWriter :=
  let w1 : ResponseWriter :=
    { w with header := HeaderSet w.header "Content-Type" "application/json" }
  w1.Write (encodeMap1 env.jsonShortEscapes "shortened-url" endpoint)

/-- Go `main.videoRequestHandler(videoService)`: the handler it returns, run on a
request, a response writer and the state. -/
def videoRequestHandler {W : Type} (env : Env W) (videoService : VideoEndpointService W)
    (r : Request) (w : ResponseWriter) (s : Sys W) : ResponseWriter × Sys W :=
  if r.Method ≠ "POST" then (Error w "Invalid request method" 405, s)
  else
    match env.decodeVideoParameters r.Body with
    | .error _ => (Error w "Invalid request body" 400, s)
    | .ok videoParams =>
      let s1 := s.record (Call.CheckIfShortenedURLExists videoParams.ID)
      let chk := videoService.urlshortener.CheckIfShortenedURLExists env videoParams.ID s1.world
      let s2 : Sys W := { s1 with world := chk.2 }
      if chk.1.1 then (sendShortenedEndpointToClient env w videoParams.ID, s2)
      else
        match chk.1.2 with
        | some err =>
          (Error w ("Failed to check if shortened URL exists: " ++ err) 500, s2)
        | none =>
          let res := videoService.callRetrievers videoParams s2
          match res.1.2 with
          | some err => (Error w ("Failed to retrieve video endpoint: " ++ err) 500, res.2)
          | none =>
            let endpoint := res.1.1
            let s3 := res.2.record (Call.ExtractExpiryParameter endpoint)
            let exp := ExtractExpiryParameter env endpoint
            let expiration := exp.1
            let w1 :=
              match exp.2 with
              | some err => Error w ("Failed to extract expiry parameter: " ++ err) 500
              | none => w
            let s4 := s3.record (Call.ShortLinkURLRequest endpoint videoParams.ID expiration)
            let slr :=
              videoService.urlshortener.ShortLinkURLRequest env endpoint videoParams.ID expiration
            match slr.2 with
            | some err =>
              (Error w1 ("Failed to create request to shorten video endpoint: " ++ err) 500, s4)
            | none =>
              let s5 := s4.record (Call.ShortenUrl slr.1)
              let sh := videoService.urlshortener.ShortenUrl env slr.1 s5.world
              let s6 : Sys W := { s5 with world := sh.2 }
              match sh.1.2 with
              | some err => (Error w1 ("Failed to shorten video endpoint: " ++ err) 500, s6)
              | none => (sendShortenedEndpointToClient env w1 sh.1.1, s6)

/-! ## Vocabulary of the statements -/

/-- World reached after invoking, in order, every retriever of the list on the query. -/
def worldAfter {W Q : Type} (q : Q) : List (Q → W → (String × Option String) × W) → W → W
  | [], w => w
  | r :: rest, w => worldAfter q rest (r q w).2

/-- Every retriever of the list returns an error when the list is invoked in order,
starting in the given world. -/
def allFail {W Q : Type} (q : Q) : List (Q → W → (String × Option String) × W) → W → Prop
  | [], _ => True
  | r :: rest, w => (r q w).1.2 ≠ none ∧ allFail q rest (r q w).2

/-- World reached after `CheckEndpoint` was run, in order, on every candidate of the
list. -/
def worldAfterChecks {W : Type} (env : Env W) : List ReturnedEndpoint → W → W
  | [], w => w
  | c :: rest, w => worldAfterChecks env rest (CheckEndpoint env c.Endpoint w).2

/-- Every candidate of the list fails `CheckEndpoint` when the list is checked in order,
starting in the given world. -/
def allRejected {W : Type} (env : Env W) : List ReturnedEndpoint → W → Prop
  | [], _ => True
  | c :: rest, w =>
    (CheckEndpoint env c.Endpoint w).1 ≠ none ∧
      allRejected env rest (CheckEndpoint env c.Endpoint w).2

/-- The value has a base-10 integer at its start, possibly after white space: it is
some space runes, an optional sign, one decimal digit, and anything after that. -/
def startsWithInteger (value : List Char) : Prop :=
  ∃ (ws sgn : List Char) (d : Char) (rest : List Char),
    value = ws ++ sgn ++ d :: rest ∧ (∀ c ∈ ws, fmt.isSpace c = true) ∧
    (sgn = [] ∨ sgn = ['+'] ∨ sgn = ['-']) ∧ d ∈ fmt.decimalDigits

namespace Gregorian

/-- Leap years of the proleptic Gregorian calendar. -/
def isLeapYear (y : Nat) : Bool :=
  y % 4 = 0 ∧ (y % 100 ≠ 0 ∨ y % 400 = 0)

/-- Number of days of a year. -/
def daysInYear (y : Nat) : Nat :=
  if isLeapYear y then 366 else 365

/-- Number of days of month `m` (1 is January) of a common or a leap year. -/
def monthLength (leap : Bool) (m : Nat) : Nat :=
  if m = 2 then (if leap then 29 else 28)
  else if m = 4 ∨ m = 6 ∨ m = 9 ∨ m = 11 then 30
  else 31

/-- Number of days of a month of a year. -/
def daysInMonth (y m : Nat) : Nat :=
  monthLength (isLeapYear y) m

/-- Days from 1 January 1970 to 1 January of the year `1970 + k`. -/
def daysToYear : Nat → Nat
  | 0 => 0
  | k + 1 => daysToYear k + daysInYear (1970 + k)

/-- Days from 1 January to the first day of month `m`, in a common or a leap year. -/
def daysBeforeMonth (leap : Bool) (m : Nat) : Nat :=
  ((List.range (m - 1)).map (fun j => monthLength leap (j + 1))).sum

/-- Days from 1 January of the year to the first day of month `m`. -/
def daysToMonth (y m : Nat) : Nat :=
  daysBeforeMonth (isLeapYear y) m

/-- The fields name a date of the calendar, 1970 or later, and a time of day. -/
def IsCivil (y mo d h mi s : Nat) : Prop :=
  1970 ≤ y ∧ 1 ≤ mo ∧ mo ≤ 12 ∧ 1 ≤ d ∧ d ≤ daysInMonth y mo ∧ h < 24 ∧ mi < 60 ∧ s < 60

/-- Seconds from 1970-01-01T00:00:00Z to the instant the fields name. -/
def unixSeconds (y mo d h mi s : Nat) : Nat :=
  (daysToYear (y - 1970) + daysToMonth y mo + (d - 1)) * 86400 + h * 3600 + mi * 60 + s

/-- The decimal digit character of `n % 10`. -/
def digit (n : Nat) : Char :=
  Char.ofNat (48 + n % 10)

/-- The text `YYYY-MM-DDThh:mm:ssZ` of the fields. -/
def iso8601 (y mo d h mi s : Nat) : String :=
  String.mk [digit (y / 1000), digit (y / 100), digit (y / 10), digit y, '-',
    digit (mo / 10), digit mo, '-', digit (d / 10), digit d, 'T',
    digit (h / 10), digit h, ':', digit (mi / 10), digit mi, ':', digit (s / 10), digit s, 'Z']

end Gregorian

/-! ## Closed instances used by the examples -/

/-- A retriever, over a one-state world, that always returns the given error. -/
def failingRetriever {Q : Type} (msg : String) : Q → Unit → (String × Option String) × Unit :=
  fun _ w => (("", some msg), w)

/-- A retriever, over a one-state world, that always returns the given payload. -/
def answeringRetriever {Q : Type} (payload : String) :
    Q → Unit → (String × Option String) × Unit :=
  fun _ w => ((payload, none), w)

/-- Split a list of runes at the first occurrence of the separator. -/
def cutAt (sep : Char) : List Char → List Char × List Char
  | [] => ([], [])
  | c :: cs => if c = sep then ([], cs) else ((cutAt sep cs).1.cons c, (cutAt sep cs).2)

/-- The pieces of a list of runes between the occurrences of the separator. -/
def splitAt (sep : Char) : List Char → List (List Char)
  | [] => [[]]
  | c :: cs =>
    if c = sep then [] :: splitAt sep cs
    else
      match splitAt sep cs with
      | [] => [[c]]
      | piece :: pieces => (c :: piece) :: pieces

/-- A URL parser for the examples, for plain `scheme://host/path?k=v&k=v` texts (no
escapes, no fragment, no port): the scheme is the text before the first colon, the host
the text between `//` and the next slash, the query values of a key the texts after
`key=` in the `&`-separated pieces after the first question mark, in order. -/
def exampleParse (raw : String) : URL :=
  let hostPart := (cutAt '/' ((cutAt ':' raw.data).2.drop 2)).1
  { Scheme := String.mk (cutAt ':' raw.data).1
    Host := String.mk (cutAt '?' hostPart).1
    Hostname := String.mk (cutAt '?' hostPart).1
    Query := fun key =>
      (splitAt '&' (cutAt '?' raw.data).2).filterMap
        (fun piece => if (cutAt '=' piece).1 = key.data then some (String.mk (cutAt '=' piece).2)
          else none)
    String := raw }

/-- The text between a fixed opening and a fixed closing, for a string that has both. -/
def between (opening closing s : String) : Option String :=
  let inner := s.data.drop opening.length
  if s.data.take opening.length = opening.data ∧
      inner.drop (inner.length - closing.length) = closing.data then
    some (String.mk (inner.take (inner.length - closing.length)))
  else none

/-- A decoder for the examples: the JSON texts that are exactly `opening`, a plain
string and `closing` decode to that string; every other text is an error. -/
def exampleDecode {α : Type} (opening closing : String) (mk : String → α) (s : String) :
    Except String α :=
  match between opening closing s with
  | some inner => .ok (mk inner)
  | none => .error "invalid character looking for beginning of value"

/-- An environment over a one-state world: every URL parses, by `exampleParse`; a
request of method `m` is answered with status `status m` and body `body`; the decoders
read the one-field JSON texts of the four types. -/
def exampleEnv (status : String → Nat) (body : String) : Env Unit where
  urlParse := fun raw => .ok (exampleParse raw)
  Do := fun _ req w => (.ok { StatusCode := status req.Method, Body := ⟨body, none⟩ }, w)
  decodeVideoParameters := exampleDecode "\x7b\"id\":\"" "\"\x7d" VideoParameters.mk
  decodeSearchQuery := exampleDecode "\x7b\"Search\":\"" "\"\x7d" SearchQuery.mk
  decodeReturnedEndpoints := fun b =>
    exampleDecode "[\x7b\"url\":\"" "\"\x7d]" (fun u => [ReturnedEndpoint.mk u]) b.data
  decodeShlinkResponse := fun b =>
    exampleDecode "\x7b\"shortUrl\":\"" "\"\x7d" shlinkResponse.mk b.data
  marshalShlinkRequest := fun r =>
    .ok ("\x7b\"longUrl\":" ++ jsonString true r.LongUrl ++ ",\"customSlug\":" ++
      jsonString true r.Slug ++ ",\"validUntil\":" ++ jsonString true r.ValidUntil ++
      ",\"domain\":" ++ jsonString true r.Domain ++ "\x7d")
  sprintBody := fun b => b.data
  jsonShortEscapes := true

/-- Every fourth element of a list, from the first on. -/
def everyFourth {α : Type} : List α → List α
  | a :: _ :: _ :: _ :: rest => a :: everyFourth rest
  | a :: _ => [a]
  | [] => []

/-- A decoder for the examples: the JSON array of one-field objects
`[{"url":"u1"},{"url":"u2"},...]` with plain strings decodes to the endpoints `u1`, `u2`,
... in order; a text without that opening and closing is an error. -/
def exampleDecodeEndpoints (b : Body) : Except String (List ReturnedEndpoint) :=
  match between "[\x7b\"url\":\"" "\"\x7d]" b.data with
  | some inner =>
    .ok ((everyFourth (splitAt '"' inner.data)).map (fun u => ReturnedEndpoint.mk (String.mk u)))
  | none => .error "invalid character looking for beginning of value"

/-- An environment over a one-state world like `exampleEnv`, in which the status of an
answer depends on the method and the URL of the request, and a response body decodes to
the list of endpoints it names. -/
def exampleEnvByURL (status : String → String → Nat) (body : String) : Env Unit where
  urlParse := fun raw => .ok (exampleParse raw)
  Do := fun _ req w =>
    (.ok { StatusCode := status req.Method req.URL, Body := ⟨body, none⟩ }, w)
  decodeVideoParameters := exampleDecode "\x7b\"id\":\"" "\"\x7d" VideoParameters.mk
  decodeSearchQuery := exampleDecode "\x7b\"Search\":\"" "\"\x7d" SearchQuery.mk
  decodeReturnedEndpoints := exampleDecodeEndpoints
  decodeShlinkResponse := fun b =>
    exampleDecode "\x7b\"shortUrl\":\"" "\"\x7d" shlinkResponse.mk b.data
  marshalShlinkRequest := fun r =>
    .ok ("\x7b\"longUrl\":" ++ jsonString true r.LongUrl ++ ",\"customSlug\":" ++
      jsonString true r.Slug ++ ",\"validUntil\":" ++ jsonString true r.ValidUntil ++
      ",\"domain\":" ++ jsonString true r.Domain ++ "\x7d")
  sprintBody := fun b => b.data
  jsonShortEscapes := true

/-- Statuses for the examples: the provider answers every `GET` with 500; a `HEAD` of
`https://cdn.example/v` is answered 200 and every other `HEAD` 404. -/
def exampleStatus (method url : String) : Nat :=
  if method = "GET" then 500
  else if url = "https://cdn.example/v" then 200
  else 404

/-- A provider body for the examples, naming three candidates. -/
def exampleCandidates : String :=
  "[\x7b\"url\":\"ftp://files.example/v\"\x7d,\x7b\"url\":\"https://dead.example/v\"\x7d," ++
    "\x7b\"url\":\"https://cdn.example/v\"\x7d]"

/-- A shortener configuration for the examples. -/
def exampleShortener : URLShortener := ⟨"https://sho.rt", "secret"⟩

/-! # Theorems -/

set_option maxRecDepth 100000

/-! ## The fallback loops -/

/-- While the retrievers fail, the video loop moves on: it records one call per
retriever and continues with the rest of the list. -/
theorem video_callRetrieversFrom_fail {W : Type} (params : VideoParameters)
    (pre rest : List (VideoEndpointRetriever W)) (index : Nat) (s : Sys W)
    (h : allFail params pre s.world) :
    VideoEndpointService.callRetrieversFrom params (pre ++ rest) index s =
      VideoEndpointService.callRetrieversFrom params rest (index + pre.length)
        { world := worldAfter params pre s.world,
          calls := s.calls ++ (List.range pre.length).map
            (fun i => Call.GetVideoEndpoint (index + i) params) } := by
  induction pre generalizing index s with
  | nil => simp [worldAfter]
  | cons r pre ih =>
    obtain ⟨hr, hrest⟩ := h
    simp only [List.cons_append, VideoEndpointService.callRetrieversFrom, Sys.record]
    cases herr : (r params s.world).1.2 with
    | none => exact absurd herr hr
    | some e =>
      simp only []
      change VideoEndpointService.callRetrieversFrom params (pre ++ rest) _ _ = _
      rw [ih _ _ hrest]
      have hidx : index + 1 + pre.length = index + (r :: pre).length := by
        simp only [List.length_cons]; omega
      have hcalls : ∀ i, Call.GetVideoEndpoint (index + 1 + i) params =
          Call.GetVideoEndpoint (index + (i + 1)) params := by
        intro i; congr 1; omega
      simp only [hidx, worldAfter, List.length_cons, List.range_succ_eq_map, List.map_cons,
        List.map_map, List.append_assoc, List.singleton_append, Function.comp_def, hcalls,
        Nat.add_zero, Nat.succ_eq_add_one]

/-- While the retrievers fail, the search loop moves on: it records one call per
retriever and continues with the rest of the list. -/
theorem search_callRetrieversFrom_fail {W : Type} (query : SearchQuery)
    (pre rest : List (SearchResultsRetriever W)) (index : Nat) (s : Sys W)
    (h : allFail query pre s.world) :
    SearchFetcherService.callRetrieversFrom query (pre ++ rest) index s =
      SearchFetcherService.callRetrieversFrom query rest (index + pre.length)
        { world := worldAfter query pre s.world,
          calls := s.calls ++ (List.range pre.length).map
            (fun i => Call.GetSearchResults (index + i) query) } := by
  induction pre generalizing index s with
  | nil => simp [worldAfter]
  | cons r pre ih =>
    obtain ⟨hr, hrest⟩ := h
    simp only [List.cons_append, SearchFetcherService.callRetrieversFrom, Sys.record]
    cases herr : (r query s.world).1.2 with
    | none => exact absurd herr hr
    | some e =>
      simp only []
      change SearchFetcherService.callRetrieversFrom query (pre ++ rest) _ _ = _
      rw [ih _ _ hrest]
      have hidx : index + 1 + pre.length = index + (r :: pre).length := by
        simp only [List.length_cons]; omega
      have hcalls : ∀ i, Call.GetSearchResults (index + 1 + i) query =
          Call.GetSearchResults (index + (i + 1)) query := by
        intro i; congr 1; omega
      simp only [hidx, worldAfter, List.length_cons, List.range_succ_eq_map, List.map_cons,
        List.map_map, List.append_assoc, List.singleton_append, Function.comp_def, hcalls,
        Nat.add_zero, Nat.succ_eq_add_one]

/-- When every retriever fails, the video fallback loop ends with the aggregate error. -/
theorem video_callRetrievers_allFail {W : Type} (vs : VideoEndpointService W)
    (params : VideoParameters) (s : Sys W) (h : allFail params vs.apis s.world) :
    vs.callRetrievers params s =
      (("", some "all APIs failed to retrieve the video endpoint"),
       { world := worldAfter params vs.apis s.world,
         calls := s.calls ++ (List.range vs.apis.length).map
           (fun i => Call.GetVideoEndpoint i params) }) := by
  have h1 := video_callRetrieversFrom_fail params vs.apis [] 0 s h
  simp only [List.append_nil, Nat.zero_add] at h1
  rw [VideoEndpointService.callRetrievers, h1, VideoEndpointService.callRetrieversFrom]

/-- When every retriever fails, the search fallback loop ends with the aggregate error. -/
theorem search_callRetrievers_allFail {W : Type} (sfs : SearchFetcherService W)
    (query : SearchQuery) (s : Sys W) (h : allFail query sfs.apis s.world) :
    sfs.callRetrievers query s =
      (("", some "all APIs failed to retrieve search results"),
       { world := worldAfter query sfs.apis s.world,
         calls := s.calls ++ (List.range sfs.apis.length).map
           (fun i => Call.GetSearchResults i query) }) := by
  have h1 := search_callRetrieversFrom_fail query sfs.apis [] 0 s h
  simp only [List.append_nil, Nat.zero_add] at h1
  rw [SearchFetcherService.callRetrievers, h1, SearchFetcherService.callRetrieversFrom]

/-- A list is what is before a position, the element there and what is after it. -/
theorem list_split_at_index {α : Type} (l : List α) (K : Nat) (hK : K < l.length) :
    l = l.take K ++ l.get ⟨K, hK⟩ :: l.drop (K + 1) := by
  rw [List.get_eq_getElem, ← List.drop_eq_getElem_cons hK, List.take_append_drop]

/-- One more index at the end of a mapped range. -/
theorem range_succ_map {α : Type} (f : Nat → α) (K : Nat) :
    (List.range K).map f ++ [f K] = (List.range (K + 1)).map f := by
  rw [List.range_succ, List.map_append, List.map_singleton]

/-- C1. For every ordered retriever list and every position `K` in it: if, invoked in
list order, the first `K` retrievers each return an error and the retriever at position
`K + 1` returns no error, then `callRetrievers` (the video and the search service alike)
returns that retriever's payload with a nil error, has invoked the retrievers at
positions `1` to `K + 1` once each, in list order, and has invoked none after it. -/
theorem callRetrievers_first_success {W : Type} :
    (∀ (vs : VideoEndpointService W) (params : VideoParameters) (K : Nat)
        (hK : K < vs.apis.length) (s : Sys W),
        allFail params (vs.apis.take K) s.world →
        ((vs.apis.get ⟨K, hK⟩) params (worldAfter params (vs.apis.take K) s.world)).1.2 = none →
        vs.callRetrievers params s =
          ((((vs.apis.get ⟨K, hK⟩) params (worldAfter params (vs.apis.take K) s.world)).1.1, none),
           { world := ((vs.apis.get ⟨K, hK⟩) params (worldAfter params (vs.apis.take K) s.world)).2,
             calls := s.calls ++
               (List.range (K + 1)).map (fun i => Call.GetVideoEndpoint i params) })) ∧
    (∀ (sfs : SearchFetcherService W) (query : SearchQuery) (K : Nat)
        (hK : K < sfs.apis.length) (s : Sys W),
        allFail query (sfs.apis.take K) s.world →
        ((sfs.apis.get ⟨K, hK⟩) query (worldAfter query (sfs.apis.take K) s.world)).1.2 = none →
        sfs.callRetrievers query s =
          ((((sfs.apis.get ⟨K, hK⟩) query (worldAfter query (sfs.apis.take K) s.world)).1.1, none),
           { world := ((sfs.apis.get ⟨K, hK⟩) query (worldAfter query (sfs.apis.take K) s.world)).2,
             calls := s.calls ++
               (List.range (K + 1)).map (fun i => Call.GetSearchResults i query) })) := by
  constructor
  · intro vs params K hK s hfail hok
    have hlen : (vs.apis.take K).length = K := by
      rw [List.length_take]; omega
    unfold VideoEndpointService.callRetrievers
    conv => lhs; rw [list_split_at_index vs.apis K hK]
    rw [video_callRetrieversFrom_fail params _ _ 0 s hfail]
    simp only [VideoEndpointService.callRetrieversFrom, Sys.record, hok, hlen, Nat.zero_add,
      List.append_assoc]
    rw [range_succ_map (fun i => Call.GetVideoEndpoint i params) K]
  · intro sfs query K hK s hfail hok
    have hlen : (sfs.apis.take K).length = K := by
      rw [List.length_take]; omega
    unfold SearchFetcherService.callRetrievers
    conv => lhs; rw [list_split_at_index sfs.apis K hK]
    rw [search_callRetrieversFrom_fail query _ _ 0 s hfail]
    simp only [SearchFetcherService.callRetrieversFrom, Sys.record, hok, hlen, Nat.zero_add,
      List.append_assoc]
    rw [range_succ_map (fun i => Call.GetSearchResults i query) K]


/-- C1 at a list of three retrievers of which the second is the first to answer. -/
theorem callRetrievers_first_success_witness :
    (VideoEndpointService.callRetrievers
      ⟨[failingRetriever "down", answeringRetriever "https://cdn.example/v",
        failingRetriever "down"], exampleShortener⟩ ⟨"xyz"⟩ ⟨(), []⟩) =
      (("https://cdn.example/v", none),
       ⟨(), [Call.GetVideoEndpoint 0 ⟨"xyz"⟩, Call.GetVideoEndpoint 1 ⟨"xyz"⟩]⟩) :=
  (@callRetrievers_first_success Unit).1
    ⟨[failingRetriever "down", answeringRetriever "https://cdn.example/v",
      failingRetriever "down"], exampleShortener⟩ ⟨"xyz"⟩ 1 (by decide) ⟨(), []⟩
    ⟨by simp [failingRetriever], trivial⟩ rfl

/-! ## The handlers -/

/-- The response `http.Error` produces on a writer nothing was written to. -/
theorem Error_fresh (msg : String) (code : Nat) :
    (Error ResponseWriter.fresh msg code).status = code ∧
    (Error ResponseWriter.fresh msg code).body = msg ++ "\n" ∧
    (Error ResponseWriter.fresh msg code).wroteHeader = true := by
  simp [Error, ResponseWriter.fresh, ResponseWriter.WriteHeader, ResponseWriter.Write]

/-- C2. When every retriever of the list returns an error, `callRetrievers` returns the
empty payload with the aggregate error (`all APIs failed to retrieve ...`), and the handler
that called it (`POST /video` after a cache miss, `POST /search`) answers with status 500
and a body that is the error line alone; no shortener call follows. -/
theorem all_retrievers_fail_gives_500 {W : Type} (env : Env W) :
    (∀ (vs : VideoEndpointService W) (params : VideoParameters) (s : Sys W),
      allFail params vs.apis s.world →
      (vs.callRetrievers params s).1 =
        ("", some "all APIs failed to retrieve the video endpoint")) ∧
    (∀ (sfs : SearchFetcherService W) (query : SearchQuery) (s : Sys W),
      allFail query sfs.apis s.world →
      (sfs.callRetrievers query s).1 =
        ("", some "all APIs failed to retrieve search results")) ∧
    (∀ (vs : VideoEndpointService W) (r : Request) (params : VideoParameters) (s : Sys W),
      r.Method = "POST" → env.decodeVideoParameters r.Body = .ok params →
      (vs.urlshortener.CheckIfShortenedURLExists env params.ID s.world).1 = (false, none) →
      allFail params vs.apis
        (vs.urlshortener.CheckIfShortenedURLExists env params.ID s.world).2 →
      (videoRequestHandler env vs r ResponseWriter.fresh s).1.status = 500 ∧
      (videoRequestHandler env vs r ResponseWriter.fresh s).1.body =
        "Failed to retrieve video endpoint: all APIs failed to retrieve the video endpoint\n" ∧
      (videoRequestHandler env vs r ResponseWriter.fresh s).2.calls =
        s.calls ++ Call.CheckIfShortenedURLExists params.ID ::
          (List.range vs.apis.length).map (fun i => Call.GetVideoEndpoint i params)) ∧
    (∀ (sfs : SearchFetcherService W) (r : Request) (query : SearchQuery) (s : Sys W),
      r.Method = "POST" → env.decodeSearchQuery r.Body = .ok query →
      allFail query sfs.apis s.world →
      (searchVideoHandler env sfs r ResponseWriter.fresh s).1.status = 500 ∧
      (searchVideoHandler env sfs r ResponseWriter.fresh s).1.body =
        "Failed to retrieve search results: all APIs failed to retrieve search results\n" ∧
      (searchVideoHandler env sfs r ResponseWriter.fresh s).2.calls =
        s.calls ++ (List.range sfs.apis.length).map (fun i => Call.GetSearchResults i query)) := by
  refine ⟨?_, ?_, ?_, ?_⟩
  · intro vs params s h
    rw [video_callRetrievers_allFail vs params s h]
  · intro sfs query s h
    rw [search_callRetrievers_allFail sfs query s h]
  · intro vs r params s hm hd hc hf
    have hcall := video_callRetrievers_allFail vs params
      { world := (vs.urlshortener.CheckIfShortenedURLExists env params.ID s.world).2,
        calls := s.calls ++ [Call.CheckIfShortenedURLExists params.ID] } hf
    have h1 : (vs.urlshortener.CheckIfShortenedURLExists env params.ID s.world).1.1 = false := by
      rw [hc]
    have h2 : (vs.urlshortener.CheckIfShortenedURLExists env params.ID s.world).1.2 = none := by
      rw [hc]
    simp only [videoRequestHandler, hm, hd, Sys.record, h1, h2, hcall, ne_eq, not_true_eq_false,
      if_false, Bool.false_eq_true]
    refine ⟨(Error_fresh _ _).1, ?_, ?_⟩
    · rw [(Error_fresh _ _).2.1]; rfl
    · simp
  · intro sfs r query s hm hd hf
    have hcall := search_callRetrievers_allFail sfs query s hf
    simp only [searchVideoHandler, hm, hd, hcall, ne_eq, not_true_eq_false, if_false]
    refine ⟨(Error_fresh _ _).1, ?_, trivial⟩
    rw [(Error_fresh _ _).2.1]; rfl

/-- C2 at a video service whose two retrievers are down. -/
theorem all_retrievers_fail_gives_500_witness :
    (videoRequestHandler (exampleEnv (fun _ => 404) "")
      ⟨[failingRetriever "api1 down", failingRetriever "api2 down"], exampleShortener⟩
      ⟨"POST", "/video", [], "\x7b\"id\":\"xyz\"\x7d"⟩ ResponseWriter.fresh ⟨(), []⟩).1.status
      = 500 ∧
    (videoRequestHandler (exampleEnv (fun _ => 404) "")
      ⟨[failingRetriever "api1 down", failingRetriever "api2 down"], exampleShortener⟩
      ⟨"POST", "/video", [], "\x7b\"id\":\"xyz\"\x7d"⟩ ResponseWriter.fresh ⟨(), []⟩).2.calls
      = [Call.CheckIfShortenedURLExists "xyz", Call.GetVideoEndpoint 0 ⟨"xyz"⟩,
         Call.GetVideoEndpoint 1 ⟨"xyz"⟩] :=
  have h := (all_retrievers_fail_gives_500 (exampleEnv (fun _ => 404) "")).2.2.1
    ⟨[failingRetriever "api1 down", failingRetriever "api2 down"], exampleShortener⟩
    ⟨"POST", "/video", [], "\x7b\"id\":\"xyz\"\x7d"⟩ ⟨"xyz"⟩ ⟨(), []⟩ rfl rfl rfl
    ⟨by simp [failingRetriever], by simp [failingRetriever], trivial⟩
  ⟨h.1, h.2.2⟩

/-- The existence check never reports a slug as existing together with an error. -/
theorem CheckIfShortenedURLExists_error_false {W : Type} (env : Env W) (u : URLShortener)
    (slug : String) (w : W) (err : String)
    (h : (u.CheckIfShortenedURLExists env slug w).1.2 = some err) :
    (u.CheckIfShortenedURLExists env slug w).1.1 = false := by
  unfold URLShortener.CheckIfShortenedURLExists at h ⊢
  cases hreq : NewRequest env "GET" (u.serverEndpoint ++ "/" ++ slug) "" with
  | error e => rfl
  | ok req =>
    simp only [hreq] at h ⊢
    generalize env.Do DefaultClient _ w = out at h ⊢
    obtain ⟨res, w1⟩ := out
    cases res with
    | error e => rfl
    | ok resp =>
      simp only [] at h ⊢
      by_cases h404 : resp.StatusCode = 404
      · simp [h404]
      · by_cases h200 : resp.StatusCode = 200
        · simp [h404, h200] at h
        · simp [h404, h200]

/-- The key of the response object needs no escaping. -/
theorem jsonString_key (b : Bool) : jsonString b "shortened-url" = "\"shortened-url\"" := by
  cases b <;> rfl

/-- C3. For a well-formed `POST /video` request with id `v` for which the existence check
reports that the slug exists, the handler answers 200 with the JSON object
`shortened-url: v` (as `json.Encoder` writes it, a newline after it) and invokes nothing
but the existence check: no retriever, no expiry extraction, no shorten call. -/
theorem cached_slug_short_circuits {W : Type} (env : Env W) (vs : VideoEndpointService W)
    (r : Request) (v : String) (s : Sys W)
    (hm : r.Method = "POST") (hd : env.decodeVideoParameters r.Body = .ok ⟨v⟩)
    (hex : (vs.urlshortener.CheckIfShortenedURLExists env v s.world).1.1 = true) :
    (videoRequestHandler env vs r ResponseWriter.fresh s).1.status = 200 ∧
    (videoRequestHandler env vs r ResponseWriter.fresh s).1.body =
      "\x7b\"shortened-url\":" ++ jsonString env.jsonShortEscapes v ++ "\x7d\n" ∧
    (videoRequestHandler env vs r ResponseWriter.fresh s).1.sentHeader =
      [("Content-Type", "application/json")] ∧
    (videoRequestHandler env vs r ResponseWriter.fresh s).2.calls =
      s.calls ++ [Call.CheckIfShortenedURLExists v] := by
  simp only [videoRequestHandler, hm, hd, Sys.record, hex, ne_eq, not_true_eq_false, if_false,
    if_true]
  refine ⟨?_, ?_, ?_, ?_⟩
  · simp [sendShortenedEndpointToClient, ResponseWriter.fresh, ResponseWriter.WriteHeader,
      ResponseWriter.Write]
  · simp only [sendShortenedEndpointToClient, ResponseWriter.fresh, ResponseWriter.WriteHeader,
      ResponseWriter.Write, encodeMap1, jsonString_key]
    simp only [Bool.false_eq_true, if_false, String.append_assoc]
    rfl
  · simp [sendShortenedEndpointToClient, ResponseWriter.fresh, ResponseWriter.WriteHeader,
      ResponseWriter.Write, HeaderSet]
  · trivial

/-- C3 at the id `abc123`. -/
theorem cached_slug_short_circuits_witness :
    (videoRequestHandler (exampleEnv (fun _ => 200) "")
      ⟨[failingRetriever "down"], exampleShortener⟩ ⟨"POST", "/video", [], "\x7b\"id\":\"abc123\"\x7d"⟩
      ResponseWriter.fresh ⟨(), []⟩).1.status = 200 ∧
    (videoRequestHandler (exampleEnv (fun _ => 200) "")
      ⟨[failingRetriever "down"], exampleShortener⟩ ⟨"POST", "/video", [], "\x7b\"id\":\"abc123\"\x7d"⟩
      ResponseWriter.fresh ⟨(), []⟩).1.body = "\x7b\"shortened-url\":\"abc123\"\x7d\n" ∧
    (videoRequestHandler (exampleEnv (fun _ => 200) "")
      ⟨[failingRetriever "down"], exampleShortener⟩ ⟨"POST", "/video", [], "\x7b\"id\":\"abc123\"\x7d"⟩
      ResponseWriter.fresh ⟨(), []⟩).2.calls = [Call.CheckIfShortenedURLExists "abc123"] :=
  have h := cached_slug_short_circuits (exampleEnv (fun _ => 200) "")
    ⟨[failingRetriever "down"], exampleShortener⟩ ⟨"POST", "/video", [], "\x7b\"id\":\"abc123\"\x7d"⟩ "abc123" ⟨(), []⟩
    rfl rfl rfl
  ⟨h.1, h.2.1, h.2.2.2⟩

/-- C4. For a well-formed `POST /video` request for which the existence check returns an
error, the handler answers with status 500 and the error line, and invokes nothing after
the existence check: no retriever and no shorten call. -/
theorem existence_check_error_fails_closed {W : Type} (env : Env W)
    (vs : VideoEndpointService W) (r : Request) (params : VideoParameters) (s : Sys W)
    (err : String)
    (hm : r.Method = "POST") (hd : env.decodeVideoParameters r.Body = .ok params)
    (herr : (vs.urlshortener.CheckIfShortenedURLExists env params.ID s.world).1.2 = some err) :
    (videoRequestHandler env vs r ResponseWriter.fresh s).1.status = 500 ∧
    (videoRequestHandler env vs r ResponseWriter.fresh s).1.body =
      "Failed to check if shortened URL exists: " ++ err ++ "\n" ∧
    (videoRequestHandler env vs r ResponseWriter.fresh s).2.calls =
      s.calls ++ [Call.CheckIfShortenedURLExists params.ID] := by
  have hfalse := CheckIfShortenedURLExists_error_false env vs.urlshortener params.ID s.world
    err herr
  simp only [videoRequestHandler, hm, hd, Sys.record, hfalse, herr, ne_eq, not_true_eq_false,
    if_false, Bool.false_eq_true]
  exact ⟨(Error_fresh _ _).1, (Error_fresh _ _).2.1, trivial⟩

/-- C4 at a shortener that answers 503. -/
theorem existence_check_error_fails_closed_witness :
    (videoRequestHandler (exampleEnv (fun _ => 503) "")
      ⟨[answeringRetriever "https://cdn.example/v"], exampleShortener⟩
      ⟨"POST", "/video", [], "\x7b\"id\":\"abc123\"\x7d"⟩ ResponseWriter.fresh ⟨(), []⟩).1.status = 500 ∧
    (videoRequestHandler (exampleEnv (fun _ => 503) "")
      ⟨[answeringRetriever "https://cdn.example/v"], exampleShortener⟩
      ⟨"POST", "/video", [], "\x7b\"id\":\"abc123\"\x7d"⟩ ResponseWriter.fresh ⟨(), []⟩).2.calls =
      [Call.CheckIfShortenedURLExists "abc123"] :=
  have h := existence_check_error_fails_closed (exampleEnv (fun _ => 503) "")
    ⟨[answeringRetriever "https://cdn.example/v"], exampleShortener⟩
    ⟨"POST", "/video", [], "\x7b\"id\":\"abc123\"\x7d"⟩ ⟨"abc123"⟩ ⟨(), []⟩ "received non-200 response: 503"
    rfl rfl rfl
  ⟨h.1, h.2.2⟩

/-- On a writer whose status was written, `http.Error` keeps the status and appends its
line to the body. -/
theorem Error_written (w : ResponseWriter) (msg : String) (code : Nat)
    (h : w.wroteHeader = true) :
    (Error w msg code).status = w.status ∧ (Error w msg code).body = w.body ++ (msg ++ "\n") := by
  simp [Error, ResponseWriter.WriteHeader, ResponseWriter.Write, h]

/-- On a writer whose status was written, sending the shortened endpoint keeps the
status and appends the JSON object to the body. -/
theorem send_written {W : Type} (env : Env W) (w : ResponseWriter) (endpoint : String)
    (h : w.wroteHeader = true) :
    (sendShortenedEndpointToClient env w endpoint).status = w.status ∧
    (sendShortenedEndpointToClient env w endpoint).body =
      w.body ++ encodeMap1 env.jsonShortEscapes "shortened-url" endpoint := by
  simp [sendShortenedEndpointToClient, ResponseWriter.WriteHeader, ResponseWriter.Write, h]

/-- C5, refuted as stated. A cache miss, one retriever that resolves an endpoint without
an `expire` parameter and a shortener that accepts the shorten request: the response has
status 500 and its body starts with the error line of the failed extraction. -/
theorem expiry_failure_response_counterexample :
    (URLShortener.CheckIfShortenedURLExists
      (exampleEnv (fun m => if m = "GET" then 404 else 200)
        "\x7b\"shortUrl\":\"https://sho.rt/xyz\"\x7d")
      exampleShortener "xyz" ()).1 = (false, none) ∧
    (ExtractExpiryParameter
      (exampleEnv (fun m => if m = "GET" then 404 else 200)
        "\x7b\"shortUrl\":\"https://sho.rt/xyz\"\x7d")
      "https://cdn.example/v") = ("", some "expire parameter not found") ∧
    (videoRequestHandler
      (exampleEnv (fun m => if m = "GET" then 404 else 200)
        "\x7b\"shortUrl\":\"https://sho.rt/xyz\"\x7d")
      ⟨[answeringRetriever "https://cdn.example/v"], exampleShortener⟩
      ⟨"POST", "/video", [], "\x7b\"id\":\"xyz\"\x7d"⟩ ResponseWriter.fresh ⟨(), []⟩).1.status = 500 ∧
    (videoRequestHandler
      (exampleEnv (fun m => if m = "GET" then 404 else 200)
        "\x7b\"shortUrl\":\"https://sho.rt/xyz\"\x7d")
      ⟨[answeringRetriever "https://cdn.example/v"], exampleShortener⟩
      ⟨"POST", "/video", [], "\x7b\"id\":\"xyz\"\x7d"⟩ ResponseWriter.fresh ⟨(), []⟩).1.body =
       "Failed to extract expiry parameter: expire parameter not found\n" ++
       "\x7b\"shortened-url\":\"https://sho.rt/xyz\"\x7d\n" ∧
    (videoRequestHandler
      (exampleEnv (fun m => if m = "GET" then 404 else 200)
        "\x7b\"shortUrl\":\"https://sho.rt/xyz\"\x7d")
      ⟨[answeringRetriever "https://cdn.example/v"], exampleShortener⟩
      ⟨"POST", "/video", [], "\x7b\"id\":\"xyz\"\x7d"⟩ ResponseWriter.fresh ⟨(), []⟩).2.calls =
      [Call.CheckIfShortenedURLExists "xyz", Call.GetVideoEndpoint 0 ⟨"xyz"⟩,
       Call.ExtractExpiryParameter "https://cdn.example/v",
       Call.ShortLinkURLRequest "https://cdn.example/v" "xyz" "",
       Call.ShortenUrl ⟨"https://cdn.example/v", "xyz", "", "sho.rt"⟩] :=
  ⟨rfl, rfl, rfl, rfl, rfl⟩

/-- C5, amended. For every `POST /video` request that misses the cache and resolves an
endpoint from which expiry extraction fails, the handler writes status 500 and the line
`Failed to extract expiry parameter: <error>`: the response status is 500 and the body
starts with that line. -/
theorem expiry_failure_writes_500 {W : Type} (env : Env W) (vs : VideoEndpointService W)
    (r : Request) (params : VideoParameters) (s : Sys W) (endpoint err : String)
    (hm : r.Method = "POST") (hd : env.decodeVideoParameters r.Body = .ok params)
    (hc : (vs.urlshortener.CheckIfShortenedURLExists env params.ID s.world).1 = (false, none))
    (hr : (vs.callRetrievers params
      { world := (vs.urlshortener.CheckIfShortenedURLExists env params.ID s.world).2,
        calls := s.calls ++ [Call.CheckIfShortenedURLExists params.ID] }).1 = (endpoint, none))
    (hx : (ExtractExpiryParameter env endpoint).2 = some err) :
    (videoRequestHandler env vs r ResponseWriter.fresh s).1.status = 500 ∧
    ∃ rest : String, (videoRequestHandler env vs r ResponseWriter.fresh s).1.body =
      "Failed to extract expiry parameter: " ++ err ++ "\n" ++ rest := by
  have h1 : (vs.urlshortener.CheckIfShortenedURLExists env params.ID s.world).1.1 = false := by
    rw [hc]
  have h2 : (vs.urlshortener.CheckIfShortenedURLExists env params.ID s.world).1.2 = none := by
    rw [hc]
  have h3 : (vs.callRetrievers params
      { world := (vs.urlshortener.CheckIfShortenedURLExists env params.ID s.world).2,
        calls := s.calls ++ [Call.CheckIfShortenedURLExists params.ID] }).1.2 = none := by
    rw [hr]
  have h4 : (vs.callRetrievers params
      { world := (vs.urlshortener.CheckIfShortenedURLExists env params.ID s.world).2,
        calls := s.calls ++ [Call.CheckIfShortenedURLExists params.ID] }).1.1 = endpoint := by
    rw [hr]
  have hw := Error_fresh ("Failed to extract expiry parameter: " ++ err) 500
  simp only [videoRequestHandler, hm, hd, Sys.record, h1, h2, h3, h4, hx, ne_eq,
    not_true_eq_false, if_false, Bool.false_eq_true]
  split
  · rename_i e1 _
    have h := Error_written _ ("Failed to create request to shorten video endpoint: " ++ e1)
      500 hw.2.2
    exact ⟨by rw [h.1, hw.1], _, by rw [h.2, hw.2.1]⟩
  · split
    · rename_i e2 _
      have h := Error_written _ ("Failed to shorten video endpoint: " ++ e2) 500 hw.2.2
      exact ⟨by rw [h.1, hw.1], _, by rw [h.2, hw.2.1]⟩
    · exact ⟨by rw [(send_written env _ _ hw.2.2).1, hw.1], _,
        by rw [(send_written env _ _ hw.2.2).2, hw.2.1]⟩

/-- C5, amended, at the refuting input. -/
theorem expiry_failure_writes_500_witness :
    (videoRequestHandler
      (exampleEnv (fun m => if m = "GET" then 404 else 200)
        "\x7b\"shortUrl\":\"https://sho.rt/xyz\"\x7d")
      ⟨[answeringRetriever "https://cdn.example/v"], exampleShortener⟩
      ⟨"POST", "/video", [], "\x7b\"id\":\"xyz\"\x7d"⟩ ResponseWriter.fresh ⟨(), []⟩).1.status = 500 :=
  (expiry_failure_writes_500
    (exampleEnv (fun m => if m = "GET" then 404 else 200)
        "\x7b\"shortUrl\":\"https://sho.rt/xyz\"\x7d")
    ⟨[answeringRetriever "https://cdn.example/v"], exampleShortener⟩
    ⟨"POST", "/video", [], "\x7b\"id\":\"xyz\"\x7d"⟩ ⟨"xyz"⟩ ⟨(), []⟩ "https://cdn.example/v"
    "expire parameter not found" rfl rfl rfl rfl rfl).1

/-! ## The shortener client and the adapters -/

/-- The request `http.NewRequest` builds when the URL parses. -/
theorem NewRequest_ok {W : Type} (env : Env W) (method url body : String) (p : URL)
    (h : env.urlParse url = .ok p) :
    NewRequest env method url body = .ok ⟨method, url, [], body⟩ := by
  simp [NewRequest, h]

/-- C9. For every slug and every status the shortener returns for `GET base/slug`,
`CheckIfShortenedURLExists` returns `(true, nil)` for 200, `(false, nil)` for 404 and
`(false, error)` for every other status; a transport failure gives `(false, error)`; it
never returns `true` together with an error. -/
theorem CheckIfShortenedURLExists_by_status {W : Type} (env : Env W) (u : URLShortener)
    (slug : String) (w : W) :
    (∀ (p : URL) (resp : Response) (w1 : W),
      env.urlParse (u.serverEndpoint ++ "/" ++ slug) = .ok p →
      env.Do DefaultClient
        ⟨"GET", u.serverEndpoint ++ "/" ++ slug, [("X-Api-Key", u.apiKey)], ""⟩ w =
        (.ok resp, w1) →
      (resp.StatusCode = 200 → u.CheckIfShortenedURLExists env slug w = ((true, none), w1)) ∧
      (resp.StatusCode = 404 → u.CheckIfShortenedURLExists env slug w = ((false, none), w1)) ∧
      (resp.StatusCode ≠ 200 → resp.StatusCode ≠ 404 →
        u.CheckIfShortenedURLExists env slug w =
          ((false, some ("received non-200 response: " ++ toString resp.StatusCode)), w1))) ∧
    (∀ (p : URL) (e : String) (w1 : W),
      env.urlParse (u.serverEndpoint ++ "/" ++ slug) = .ok p →
      env.Do DefaultClient
        ⟨"GET", u.serverEndpoint ++ "/" ++ slug, [("X-Api-Key", u.apiKey)], ""⟩ w =
        (.error e, w1) →
      u.CheckIfShortenedURLExists env slug w =
        ((false, some ("failed to send request: " ++ e)), w1)) ∧
    ((u.CheckIfShortenedURLExists env slug w).1.1 = true →
      (u.CheckIfShortenedURLExists env slug w).1.2 = none) := by
  refine ⟨?_, ?_, ?_⟩
  · intro p resp w1 hp hdo
    have hreq := NewRequest_ok env "GET" (u.serverEndpoint ++ "/" ++ slug) "" p hp
    refine ⟨?_, ?_, ?_⟩
    · intro h200
      simp [URLShortener.CheckIfShortenedURLExists, hreq, HeaderSet, hdo, h200]
    · intro h404
      simp [URLShortener.CheckIfShortenedURLExists, hreq, HeaderSet, hdo, h404]
    · intro h200 h404
      simp [URLShortener.CheckIfShortenedURLExists, hreq, HeaderSet, hdo, h200, h404]
  · intro p e w1 hp hdo
    have hreq := NewRequest_ok env "GET" (u.serverEndpoint ++ "/" ++ slug) "" p hp
    simp [URLShortener.CheckIfShortenedURLExists, hreq, HeaderSet, hdo]
  · intro htrue
    unfold URLShortener.CheckIfShortenedURLExists at htrue ⊢
    cases hreq : NewRequest env "GET" (u.serverEndpoint ++ "/" ++ slug) "" with
    | error e => simp [hreq] at htrue
    | ok req =>
      simp only [hreq] at htrue ⊢
      generalize env.Do DefaultClient _ w = out at htrue ⊢
      obtain ⟨res, w1⟩ := out
      cases res with
      | error e => simp at htrue
      | ok resp =>
        simp only [] at htrue ⊢
        by_cases h404 : resp.StatusCode = 404
        · simp [h404]
        · by_cases h200 : resp.StatusCode = 200
          · simp [h200]
          · simp [h404, h200] at htrue

/-- C9 at the statuses 200, 404 and 503. -/
theorem CheckIfShortenedURLExists_by_status_witness :
    URLShortener.CheckIfShortenedURLExists (exampleEnv (fun _ => 200) "")
      exampleShortener "abc123" () = ((true, none), ()) ∧
    URLShortener.CheckIfShortenedURLExists (exampleEnv (fun _ => 404) "")
      exampleShortener "abc123" () = ((false, none), ()) ∧
    URLShortener.CheckIfShortenedURLExists (exampleEnv (fun _ => 503) "")
      exampleShortener "abc123" () = ((false, some "received non-200 response: 503"), ()) :=
  ⟨((CheckIfShortenedURLExists_by_status (exampleEnv (fun _ => 200) "")
      exampleShortener "abc123" ()).1 _ _ () rfl rfl).1 rfl,
   ((CheckIfShortenedURLExists_by_status (exampleEnv (fun _ => 404) "")
      exampleShortener "abc123" ()).1 _ _ () rfl rfl).2.1 rfl,
   ((CheckIfShortenedURLExists_by_status (exampleEnv (fun _ => 503) "")
      exampleShortener "abc123" ()).1 _ _ () rfl rfl).2.2 (by decide) (by decide)⟩

/-- C10, refuted as stated. An upstream answer with status 500: `GetSearchResults`
returns its body as the payload with a nil error, and `GetVideoEndpoint` returns the
endpoint listed in its body with a nil error. -/
theorem adapters_non_2xx_counterexample :
    api3.GetSearchResults (exampleEnv (fun _ => 500) "upstream exploded")
      ⟨"api3", "key", exampleParse "https://search.example/api"⟩ ⟨"cats"⟩ () =
      (("upstream exploded", none), ()) ∧
    api1.GetVideoEndpoint
      (exampleEnv (fun m => if m = "GET" then 500 else 200)
        "[\x7b\"url\":\"https://cdn.example/v\"\x7d]")
      ⟨"api1", "key", exampleParse "https://video.example/api"⟩ ⟨"xyz"⟩ () =
      (("https://cdn.example/v", none), ()) :=
  ⟨rfl, rfl⟩

/-- While the candidates fail `CheckEndpoint`, the validation loop moves on to the rest of
the list. -/
theorem firstValidEndpoint_rejected {W : Type} (env : Env W)
    (pre rest : List ReturnedEndpoint) (w : W) (h : allRejected env pre w) :
    api1.firstValidEndpoint env (pre ++ rest) w =
      api1.firstValidEndpoint env rest (worldAfterChecks env pre w) := by
  induction pre generalizing w with
  | nil => rfl
  | cons c pre ih =>
    obtain ⟨hc, hrest⟩ := h
    cases hchk : CheckEndpoint env c.Endpoint w with
    | mk o w1 =>
      rw [hchk] at hc hrest
      cases o with
      | none => exact absurd rfl hc
      | some e =>
        simp only [List.cons_append, api1.firstValidEndpoint, hchk, worldAfterChecks]
        exact ih w1 hrest

/-- The validation loop stops at a candidate that passes `CheckEndpoint` and returns it. -/
theorem firstValidEndpoint_accepted {W : Type} (env : Env W) (c : ReturnedEndpoint)
    (post : List ReturnedEndpoint) (w : W) (h : (CheckEndpoint env c.Endpoint w).1 = none) :
    api1.firstValidEndpoint env (c :: post) w =
      ((c.Endpoint, none), (CheckEndpoint env c.Endpoint w).2) := by
  cases hchk : CheckEndpoint env c.Endpoint w with
  | mk o w1 =>
    rw [hchk] at h
    simp only [] at h
    subst h
    simp only [api1.firstValidEndpoint, hchk]

/-- C10, amended. The adapters do not look at the upstream status. For every status,
`GetSearchResults` returns the body it read as the payload with a nil error, and an error
with no payload when the body cannot be read. For every status, `GetVideoEndpoint` returns
an error with no payload when the body is not decodable JSON; otherwise it runs
`CheckEndpoint` on the decoded candidates in order and returns the first candidate that
passes, with a nil error, or the error `no valid endpoints found` with no payload when
none passes. A transport failure gives an error and no payload in both. -/
theorem adapters_ignore_status {W : Type} (env : Env W) :
    (∀ (a : api3) (searchQuery : SearchQuery) (w : W) (p : URL) (res : Response) (w1 : W),
      env.urlParse (a.url.String ++ "?q=" ++ searchQuery.Search) = .ok p →
      env.Do DefaultClient
        ⟨"GET", a.url.String ++ "?q=" ++ searchQuery.Search,
         [("x-rapidapi-key", a.key), ("X-rapidapi-host", a.url.Host)], ""⟩ w = (.ok res, w1) →
      (res.Body.err = none → a.GetSearchResults env searchQuery w = ((res.Body.data, none), w1)) ∧
      (∀ e, res.Body.err = some e →
        a.GetSearchResults env searchQuery w =
          (("", some ("error reading response body: " ++ e)), w1))) ∧
    (∀ (a : api1) (params : VideoParameters) (w : W) (p : URL) (res : Response) (w1 : W),
      env.urlParse (a.url.String ++ "?id=" ++ params.ID ++ "&filter=" ++ "audioandvideo") =
        .ok p →
      env.Do DefaultClient
        ⟨"GET", a.url.String ++ "?id=" ++ params.ID ++ "&filter=" ++ "audioandvideo",
         [("x-rapidapi-key", a.key), ("X-rapidapi-host", a.url.Host)], ""⟩ w = (.ok res, w1) →
      (∀ e, env.decodeReturnedEndpoints res.Body = .error e →
        a.GetVideoEndpoint env params w = (("", some ("error decoding response: " ++ e)), w1)) ∧
      (∀ (pre : List ReturnedEndpoint) (c : ReturnedEndpoint) (post : List ReturnedEndpoint),
        env.decodeReturnedEndpoints res.Body = .ok (pre ++ c :: post) →
        allRejected env pre w1 →
        (CheckEndpoint env c.Endpoint (worldAfterChecks env pre w1)).1 = none →
        a.GetVideoEndpoint env params w =
          ((c.Endpoint, none),
           (CheckEndpoint env c.Endpoint (worldAfterChecks env pre w1)).2)) ∧
      (∀ candidates : List ReturnedEndpoint,
        env.decodeReturnedEndpoints res.Body = .ok candidates →
        allRejected env candidates w1 →
        a.GetVideoEndpoint env params w =
          (("", some "no valid endpoints found"), worldAfterChecks env candidates w1))) ∧
    (∀ (a : api3) (searchQuery : SearchQuery) (w : W) (p : URL) (e : String) (w1 : W),
      env.urlParse (a.url.String ++ "?q=" ++ searchQuery.Search) = .ok p →
      env.Do DefaultClient
        ⟨"GET", a.url.String ++ "?q=" ++ searchQuery.Search,
         [("x-rapidapi-key", a.key), ("X-rapidapi-host", a.url.Host)], ""⟩ w = (.error e, w1) →
      a.GetSearchResults env searchQuery w = (("", some ("error making request: " ++ e)), w1)) ∧
    (∀ (a : api1) (params : VideoParameters) (w : W) (p : URL) (e : String) (w1 : W),
      env.urlParse (a.url.String ++ "?id=" ++ params.ID ++ "&filter=" ++ "audioandvideo") =
        .ok p →
      env.Do DefaultClient
        ⟨"GET", a.url.String ++ "?id=" ++ params.ID ++ "&filter=" ++ "audioandvideo",
         [("x-rapidapi-key", a.key), ("X-rapidapi-host", a.url.Host)], ""⟩ w = (.error e, w1) →
      a.GetVideoEndpoint env params w = (("", some ("error making request: " ++ e)), w1)) := by
  refine ⟨?_, ?_, ?_, ?_⟩
  · intro a q w p res w1 hp hdo
    have hreq := NewRequest_ok env "GET" (a.url.String ++ "?q=" ++ q.Search) "" p hp
    constructor
    · intro hnone
      simp [api3.GetSearchResults, hreq, HeaderAdd, hdo, Body.ReadAll, hnone]
    · intro e hsome
      simp [api3.GetSearchResults, hreq, HeaderAdd, hdo, Body.ReadAll, hsome]
  · intro a params w p res w1 hp hdo
    have hreq := NewRequest_ok env "GET"
      (a.url.String ++ "?id=" ++ params.ID ++ "&filter=" ++ "audioandvideo") "" p hp
    refine ⟨?_, ?_, ?_⟩
    · intro e hdec
      simp [api1.GetVideoEndpoint, hreq, HeaderAdd, hdo, hdec]
    · intro pre c post hdec hrej hpass
      have hrun : a.GetVideoEndpoint env params w =
          api1.firstValidEndpoint env (pre ++ c :: post) w1 := by
        simp [api1.GetVideoEndpoint, hreq, HeaderAdd, hdo, hdec]
      rw [hrun, firstValidEndpoint_rejected env pre (c :: post) w1 hrej,
        firstValidEndpoint_accepted env c post _ hpass]
    · intro candidates hdec hrej
      have hrun : a.GetVideoEndpoint env params w =
          api1.firstValidEndpoint env candidates w1 := by
        simp [api1.GetVideoEndpoint, hreq, HeaderAdd, hdo, hdec]
      have h := firstValidEndpoint_rejected env candidates [] w1 hrej
      rw [List.append_nil] at h
      rw [hrun, h, api1.firstValidEndpoint]
  · intro a q w p e w1 hp hdo
    have hreq := NewRequest_ok env "GET" (a.url.String ++ "?q=" ++ q.Search) "" p hp
    simp [api3.GetSearchResults, hreq, HeaderAdd, hdo]
  · intro a params w p e w1 hp hdo
    have hreq := NewRequest_ok env "GET"
      (a.url.String ++ "?id=" ++ params.ID ++ "&filter=" ++ "audioandvideo") "" p hp
    simp [api1.GetVideoEndpoint, hreq, HeaderAdd, hdo]

/-- C10, amended, at upstream answers with status 500: the search adapter returns the body
as its payload; the video adapter, given three candidates of which the first has the
scheme `ftp`, the second answers `HEAD` with 404 and the third with 200, returns the
third; given the first two only, it returns `no valid endpoints found`. -/
theorem adapters_ignore_status_witness :
    api3.GetSearchResults (exampleEnv (fun _ => 500) "upstream exploded")
      ⟨"api3", "key", exampleParse "https://search.example/api"⟩ ⟨"cats"⟩ () =
      (("upstream exploded", none), ()) ∧
    api1.GetVideoEndpoint (exampleEnvByURL exampleStatus exampleCandidates)
      ⟨"api1", "key", exampleParse "https://video.example/api"⟩ ⟨"xyz"⟩ () =
      (("https://cdn.example/v", none), ()) ∧
    api1.GetVideoEndpoint
      (exampleEnvByURL exampleStatus
        "[\x7b\"url\":\"ftp://files.example/v\"\x7d,\x7b\"url\":\"https://dead.example/v\"\x7d]")
      ⟨"api1", "key", exampleParse "https://video.example/api"⟩ ⟨"xyz"⟩ () =
      (("", some "no valid endpoints found"), ()) :=
  ⟨((adapters_ignore_status (exampleEnv (fun _ => 500) "upstream exploded")).1
      ⟨"api3", "key", exampleParse "https://search.example/api"⟩ ⟨"cats"⟩ () _ _ () rfl rfl).1
      rfl,
   ((adapters_ignore_status (exampleEnvByURL exampleStatus exampleCandidates)).2.1
      ⟨"api1", "key", exampleParse "https://video.example/api"⟩ ⟨"xyz"⟩ () _ _ () rfl rfl).2.1
      [⟨"ftp://files.example/v"⟩, ⟨"https://dead.example/v"⟩] ⟨"https://cdn.example/v"⟩ []
      rfl ⟨by decide, by decide, trivial⟩ rfl,
   ((adapters_ignore_status
      (exampleEnvByURL exampleStatus
        "[\x7b\"url\":\"ftp://files.example/v\"\x7d,\x7b\"url\":\"https://dead.example/v\"\x7d]")).2.1
      ⟨"api1", "key", exampleParse "https://video.example/api"⟩ ⟨"xyz"⟩ () _ _ () rfl rfl).2.2
      [⟨"ftp://files.example/v"⟩, ⟨"https://dead.example/v"⟩]
      rfl ⟨by decide, by decide, trivial⟩⟩

/-! ## Expiry extraction -/

/-- C8. For every parseable URL with no `expire` query parameter, or whose first `expire`
parameter is empty, `ExtractExpiryParameter` returns the empty string with the error
`expire parameter not found`, whatever the other query parameters are. -/
theorem ExtractExpiryParameter_missing {W : Type} (env : Env W) (longURL : String)
    (parsedURL : URL) (hp : env.urlParse longURL = .ok parsedURL)
    (hq : parsedURL.Query "expire" = [] ∨ (parsedURL.Query "expire").head? = some "") :
    ExtractExpiryParameter env longURL = ("", some "expire parameter not found") := by
  have hget : Values.Get parsedURL.Query "expire" = "" := by
    unfold Values.Get
    rcases hq with h | h
    · rw [h]
    · cases hl : parsedURL.Query "expire" with
      | nil => rfl
      | cons a rest =>
        rw [hl] at h
        simpa using h
  simp [ExtractExpiryParameter, hp, hget]

/-- C8 at a URL without the parameter and at one whose first `expire` is empty. -/
theorem ExtractExpiryParameter_missing_witness :
    ExtractExpiryParameter (exampleEnv (fun _ => 200) "")
      "https://cdn.example/v?itag=18&source=web" = ("", some "expire parameter not found") ∧
    ExtractExpiryParameter (exampleEnv (fun _ => 200) "")
      "https://cdn.example/v?expire=&expire=1700000000" =
      ("", some "expire parameter not found") :=
  ⟨ExtractExpiryParameter_missing _ _ _ rfl (Or.inl rfl),
   ExtractExpiryParameter_missing _ _ _ rfl (Or.inr rfl)⟩

/-- C7, refuted as stated. The values `12.5`, `1700000000abc` and `0x10` are not base-10
integers, and `ExtractExpiryParameter` returns a timestamp for each with a nil error: it
reads the integer at the start of the value and leaves the rest unread. -/
theorem ExtractExpiryParameter_malformed_counterexample :
    ExtractExpiryParameter (exampleEnv (fun _ => 200) "") "https://cdn.example/v?expire=12.5" =
      ("1970-01-01T00:00:12Z", none) ∧
    ExtractExpiryParameter (exampleEnv (fun _ => 200) "")
      "https://cdn.example/v?expire=1700000000abc" = ("2023-11-14T22:13:20Z", none) ∧
    ExtractExpiryParameter (exampleEnv (fun _ => 200) "") "https://cdn.example/v?expire=0x10" =
      ("1970-01-01T00:00:00Z", none) :=
  ⟨rfl, rfl, rfl⟩

/-- What `SkipSpace` consumes is a run of space runes. -/
theorem SkipSpace_ok (l l1 : List Char) (h : fmt.SkipSpace l = .ok l1) :
    ∃ ws, l = ws ++ l1 ∧ ∀ c ∈ ws, fmt.isSpace c = true := by
  induction l with
  | nil =>
    simp only [fmt.SkipSpace, Except.ok.injEq] at h
    exact ⟨[], by simp [← h], by simp⟩
  | cons r rest ih =>
    unfold fmt.SkipSpace at h
    by_cases h1 : r = '\r' ∧ rest.head? = some '\n'
    · rw [if_pos h1] at h
      obtain ⟨ws, hws, hsp⟩ := ih h
      refine ⟨r :: ws, by rw [hws]; rfl, ?_⟩
      intro c hc
      rcases List.mem_cons.1 hc with rfl | hc
      · rw [h1.1]; rfl
      · exact hsp c hc
    · rw [if_neg h1] at h
      by_cases h2 : r = '\n'
      · rw [if_pos h2] at h; cases h
      · rw [if_neg h2] at h
        by_cases h3 : fmt.isSpace r = true
        · simp only [h3, Bool.not_true, Bool.false_eq_true, if_false] at h
          obtain ⟨ws, hws, hsp⟩ := ih h
          refine ⟨r :: ws, by rw [hws]; rfl, ?_⟩
          intro c hc
          rcases List.mem_cons.1 hc with rfl | hc
          · exact h3
          · exact hsp c hc
        · simp only [h3, Bool.not_false, if_true, Except.ok.injEq] at h
          exact ⟨[], by simp [← h], by simp⟩

/-- A successful `scanInt` found an integer at the start of its input. -/
theorem scanInt_ok (l : List Char) (n : Int) (h : fmt.scanInt l = .ok n) :
    startsWithInteger l := by
  unfold fmt.scanInt at h
  cases hs : fmt.SkipSpace l with
  | error e => simp [hs] at h
  | ok l1 =>
    obtain ⟨ws, hws, hsp⟩ := SkipSpace_ok l l1 hs
    rw [hs] at h
    cases l1 with
    | nil => simp at h
    | cons r rest =>
      simp only [] at h
      by_cases hsign : fmt.sign.contains r = true
      · simp only [hsign, if_true] at h
        cases rest with
        | nil => simp at h
        | cons d rest1 =>
          simp only [] at h
          by_cases hd : d ∈ fmt.decimalDigits
          · refine ⟨ws, [r], d, rest1, by simp [hws], hsp, ?_, hd⟩
            simp [fmt.sign] at hsign
            rcases hsign with rfl | rfl <;> simp
          · simp [hd] at h
      · simp only [hsign, Bool.false_eq_true, if_false] at h
        by_cases hd : r ∈ fmt.decimalDigits
        · exact ⟨ws, [], r, rest, by simp [hws], hsp, Or.inl rfl, hd⟩
        · simp [hd] at h

/-- An integer at the start of a list is at the start of every extension of it. -/
theorem startsWithInteger_append (l more : List Char) (h : startsWithInteger l) :
    startsWithInteger (l ++ more) := by
  obtain ⟨ws, sgn, d, rest, hl, hsp, hsgn, hd⟩ := h
  exact ⟨ws, sgn, d, rest ++ more, by simp [hl], hsp, hsgn, hd⟩

/-- A successful `Sscanf` found an integer at the start of the string. -/
theorem Sscanf_d_ok (str : String) (n : Int) (h : fmt.Sscanf_d str = .ok n) :
    startsWithInteger str.data := by
  unfold fmt.Sscanf_d at h
  cases hs : fmt.SkipSpace (str.data.take fmt.hugeWid) with
  | error e => simp [hs] at h
  | ok l1 =>
    rw [hs] at h
    obtain ⟨ws, hws, hsp⟩ := SkipSpace_ok _ l1 hs
    obtain ⟨ws2, sgn, d, rest, hl, hsp2, hsgn, hd⟩ := scanInt_ok l1 n h
    have h1 : startsWithInteger (str.data.take fmt.hugeWid) := by
      refine ⟨ws ++ ws2, sgn, d, rest, by rw [hws, hl]; simp, ?_, hsgn, hd⟩
      intro c hc
      rcases List.mem_append.1 hc with hc | hc
      · exact hsp c hc
      · exact hsp2 c hc
    have := startsWithInteger_append _ (str.data.drop fmt.hugeWid) h1
    rwa [List.take_append_drop] at this

/-- C7, amended. For every parseable URL whose `expire` parameter is non-empty and has no
base-10 integer at its start (optional white space, an optional sign, a decimal digit),
`ExtractExpiryParameter` fails with the malformed-expiry error
(`error converting expire to int64: ...`) and returns no timestamp. -/
theorem ExtractExpiryParameter_malformed {W : Type} (env : Env W) (longURL : String)
    (parsedURL : URL) (hp : env.urlParse longURL = .ok parsedURL)
    (hne : Values.Get parsedURL.Query "expire" ≠ "")
    (hbad : ¬ startsWithInteger (Values.Get parsedURL.Query "expire").data) :
    ∃ err : fmt.ScanError, ExtractExpiryParameter env longURL =
      ("", some ("error converting expire to int64: " ++ err.Error)) := by
  cases hs : fmt.Sscanf_d (Values.Get parsedURL.Query "expire") with
  | ok n => exact absurd (Sscanf_d_ok _ n hs) hbad
  | error e =>
    refine ⟨e, ?_⟩
    simp [ExtractExpiryParameter, hp, hne, hs]

/-- The text `abc` has no integer at its start. -/
theorem abc_not_integer : ¬ startsWithInteger ['a', 'b', 'c'] := by
  rintro ⟨ws, sgn, d, rest, hl, hsp, hsgn, hd⟩
  cases ws with
  | cons c ws =>
    simp only [List.cons_append, List.cons.injEq] at hl
    have := hsp c (List.mem_cons_self _ _)
    rw [← hl.1] at this
    exact absurd this (by decide)
  | nil =>
    rcases hsgn with rfl | rfl | rfl
    · simp only [List.nil_append, List.cons.injEq] at hl
      rw [← hl.1] at hd
      exact absurd hd (by decide)
    · simp at hl
    · simp at hl

/-- C7, amended, at the value `abc`. -/
theorem ExtractExpiryParameter_malformed_witness :
    ∃ err : fmt.ScanError,
      ExtractExpiryParameter (exampleEnv (fun _ => 200) "") "https://cdn.example/v?expire=abc" =
        ("", some ("error converting expire to int64: " ++ err.Error)) :=
  ExtractExpiryParameter_malformed (exampleEnv (fun _ => 200) "")
    "https://cdn.example/v?expire=abc" _ rfl (by decide) abc_not_integer

/-! ### The calendar -/

/-- Leap years, on the arithmetic form of the Gregorian rule. -/
theorem isLeapYear_iff (y : Nat) :
    Gregorian.isLeapYear y = true ↔ y % 4 = 0 ∧ (y % 100 ≠ 0 ∨ y % 400 = 0) := by
  simp [Gregorian.isLeapYear]

/-- Closed form of the number of days from 1970 to the year `1970 + k`. -/
theorem daysToYear_closed (k : Nat) :
    Gregorian.daysToYear k + 477 + (1969 + k) / 100 =
      365 * k + (1969 + k) / 4 + (1969 + k) / 400 := by
  induction k with
  | zero => rfl
  | succ k ih =>
    unfold Gregorian.daysToYear Gregorian.daysInYear
    by_cases hl : Gregorian.isLeapYear (1970 + k) = true
    · rw [if_pos hl]
      have := (isLeapYear_iff _).1 hl
      omega
    · rw [if_neg hl]
      have := mt (isLeapYear_iff _).2 hl
      omega

/-- Centuries within a 400-year cycle, as `absDate` cuts them off. -/
theorem stage100 (d1 : Nat) (h1 : d1 < 146097) :
    d1 / 36524 - d1 / 36524 / 4 ≤ 3 ∧
    36524 * (d1 / 36524 - d1 / 36524 / 4) ≤ d1 ∧
    (d1 - 36524 * (d1 / 36524 - d1 / 36524 / 4) < 36524 ∨
      (d1 / 36524 - d1 / 36524 / 4 = 3 ∧
        d1 - 36524 * (d1 / 36524 - d1 / 36524 / 4) = 36524)) := by
  have : d1 / 36524 ≤ 4 := by omega
  omega

/-- Four-year cycles within a century, as `absDate` cuts them off. -/
theorem stage4 (d2 : Nat) (h2 : d2 ≤ 36524) :
    d2 / 1461 ≤ 24 ∧ 1461 * (d2 / 1461) ≤ d2 ∧ d2 - 1461 * (d2 / 1461) < 1461 ∧
    (d2 / 1461 = 24 → d2 < 36524 → d2 - 1461 * (d2 / 1461) < 1460) := by
  omega

/-- Years within a four-year cycle, as `absDate` cuts them off. -/
theorem stage1 (d3 : Nat) (h3 : d3 < 1461) :
    d3 / 365 - d3 / 365 / 4 ≤ 3 ∧
    365 * (d3 / 365 - d3 / 365 / 4) ≤ d3 ∧
    (d3 - 365 * (d3 / 365 - d3 / 365 / 4) < 365 ∨
      (d3 / 365 - d3 / 365 / 4 = 3 ∧ d3 = 1460 ∧
        d3 - 365 * (d3 / 365 - d3 / 365 / 4) = 365)) := by
  have : d3 / 365 ≤ 4 := by omega
  omega

/-- The year count of a position in the 400-year cycles that start in 1601. -/
theorem closedForm (c a b e : Nat) (ha : a ≤ 3) (hb : b ≤ 24) (he : e ≤ 3) :
    (1600 + 400 * c + 100 * a + 4 * b + e) / 4 = 400 + 100 * c + 25 * a + b ∧
    (1600 + 400 * c + 100 * a + 4 * b + e) / 100 = 16 + 4 * c + a ∧
    (1600 + 400 * c + 100 * a + 4 * b + e) / 400 = 4 + c := by
  refine ⟨by omega, by omega, by omega⟩

/-- Leap years by position in the cycles. -/
theorem leapForm (c a b e : Nat) (ha : a ≤ 3) (hb : b ≤ 24) (he : e ≤ 3) :
    Gregorian.isLeapYear (1601 + 400 * c + 100 * a + 4 * b + e) = true ↔
      (e = 3 ∧ (b < 24 ∨ a = 3)) := by
  rw [isLeapYear_iff]
  constructor
  · intro h; omega
  · intro h; omega

/-- Days since 1601 to the year at a position in the cycles, in days since 1970. -/
theorem cycleDays (c a b e k : Nat) (ha : a ≤ 3) (hb : b ≤ 24) (he : e ≤ 3)
    (hk : 1970 + k = 1601 + 400 * c + 100 * a + 4 * b + e) :
    Gregorian.daysToYear k + 134774 = 146097 * c + 36524 * a + 1461 * b + 365 * e := by
  have hc := daysToYear_closed k
  have hf := closedForm c a b e ha hb he
  have h1 : 1969 + k = 1600 + 400 * c + 100 * a + 4 * b + e := by omega
  rw [h1, hf.1, hf.2.1, hf.2.2] at hc
  omega

/-- The 400-year cycle of a day of the years 1970 to 9999, counted from the absolute
zero year of `time`. -/
theorem stage400 (D : Nat) (hD : D ≤ 2932896) :
    730692560 ≤ (D + 106751991073094) / 146097 ∧
    146097 * ((D + 106751991073094) / 146097) ≤ D + 106751991073094 ∧
    D + 106751991073094 - 146097 * ((D + 106751991073094) / 146097) < 146097 := by
  omega

/-- A day of 1970 or later lies in the year 1970 or later. -/
theorem yearLow (c a b e d4 : Nat) (ha : a ≤ 3) (hb : b ≤ 24) (he : e ≤ 3)
    (hd4 : d4 < 365 ∨ (e = 3 ∧ d4 = 365))
    (h : 134774 ≤ 146097 * c + 36524 * a + 1461 * b + 365 * e + d4) :
    369 ≤ 400 * c + 100 * a + 4 * b + e := by
  omega

/-- A day up to the last day of 9999 lies in the year 9999 or earlier. -/
theorem yearHigh (c a b e d4 : Nat) (ha : a ≤ 3) (hb : b ≤ 24) (he : e ≤ 3)
    (h : 146097 * c + 36524 * a + 1461 * b + 365 * e + d4 ≤ 2932896 + 134774) :
    400 * c + 100 * a + 4 * b + e ≤ 8398 := by
  omega

/-- The year and the day of the year `absDate` computes, for instants of the years
1970 to 9999, are those of the calendar. -/
theorem absYearDay_spec (n : Nat) (hn : n ≤ 253402300799) :
    ∃ k yday : Nat, time.absYearDay (n + 9223372028715321600) = (((1970 + k : Nat) : Int), yday) ∧
      1970 + k ≤ 9999 ∧ yday < Gregorian.daysInYear (1970 + k) ∧
      Gregorian.daysToYear k + yday = n / 86400 := by
  have hd : (n + 9223372028715321600) / 86400 = n / 86400 + 106751991073094 := by omega
  have hD : n / 86400 ≤ 2932896 := by omega
  simp only [time.absYearDay, time.secondsPerDay, time.daysPer400Years, time.daysPer100Years,
    time.daysPer4Years, time.absoluteZeroYear, Nat.reduceMul, Nat.reduceAdd, hd]
  clear hd hn
  generalize n / 86400 = D at hD
  obtain ⟨hq, hq2, hq3⟩ := stage400 D hD
  generalize (D + 106751991073094) / 146097 = q at hq hq2 hq3
  obtain ⟨c, rfl⟩ : ∃ c, q = 730692560 + c := ⟨q - 730692560, by omega⟩
  clear hq
  generalize hd1 : D + 106751991073094 - 146097 * (730692560 + c) = d1 at hq3
  have hsum1 : D + 134774 = 146097 * c + d1 := by omega
  clear hd1 hq2
  obtain ⟨ha, ha2, ha3⟩ := stage100 d1 hq3
  generalize d1 / 36524 - d1 / 36524 / 4 = a at ha ha2 ha3
  generalize hd2 : d1 - 36524 * a = d2 at ha3
  have hd2b : d2 ≤ 36524 := by omega
  have hsum2 : D + 134774 = 146097 * c + 36524 * a + d2 := by omega
  clear hd2 hsum1 ha2 hq3
  obtain ⟨hb, hb2, hb3, hb4⟩ := stage4 d2 hd2b
  generalize d2 / 1461 = b at hb hb2 hb3 hb4
  generalize hd3 : d2 - 1461 * b = d3 at hb3 hb4
  have hsum3 : D + 134774 = 146097 * c + 36524 * a + 1461 * b + d3 := by omega
  have hcent : d3 = 1460 → b < 24 ∨ a = 3 := by omega
  clear hd3 hsum2 hb2 hb4 ha3 hd2b
  obtain ⟨he, he2, he3⟩ := stage1 d3 hb3
  generalize d3 / 365 - d3 / 365 / 4 = e at he he2 he3
  generalize hd4 : d3 - 365 * e = d4 at he3
  have hsum : D + 134774 = 146097 * c + 36524 * a + 1461 * b + 365 * e + d4 := by omega
  have hd4b : d4 < 365 ∨ (e = 3 ∧ d4 = 365) := by omega
  have hleapday : d4 = 365 → e = 3 ∧ (b < 24 ∨ a = 3) := by omega
  clear hd4 hsum3 he2 he3 hcent hb3
  have hlow := yearLow c a b e d4 ha hb he hd4b (by omega)
  have hhigh := yearHigh c a b e d4 ha hb he (by omega)
  obtain ⟨k, hk⟩ : ∃ k, 1970 + k = 1601 + 400 * c + 100 * a + 4 * b + e :=
    ⟨400 * c + 100 * a + 4 * b + e - 369, by omega⟩
  have hdays := cycleDays c a b e k ha hb he hk
  have hleap := leapForm c a b e ha hb he
  refine ⟨k, d4, ?_, ?_, ?_, ?_⟩
  · congr 1
    push_cast
    omega
  · omega
  · unfold Gregorian.daysInYear
    rw [hk]
    by_cases h365 : d4 < 365
    · split <;> omega
    · have hl : Gregorian.isLeapYear (1601 + 400 * c + 100 * a + 4 * b + e) = true :=
        hleap.2 (hleapday (by omega))
      rw [if_pos hl]
      omega
  · omega





/-- Month and day `absDate` computes from the day of the year are those of the calendar. -/
theorem monthDay_spec : ∀ (leap : Bool), ∀ yday < 366, (leap = true ∨ yday < 365) →
    1 ≤ (time.monthDay leap yday).1 ∧ (time.monthDay leap yday).1 ≤ 12 ∧
    1 ≤ (time.monthDay leap yday).2 ∧
    (time.monthDay leap yday).2 ≤ Gregorian.monthLength leap (time.monthDay leap yday).1 ∧
    Gregorian.daysBeforeMonth leap (time.monthDay leap yday).1 +
      ((time.monthDay leap yday).2 - 1) = yday := by
  decide




/-! ### Decimal digits -/

/-- With enough fuel the digit loop of `Nat.toDigits` puts the decimal digits of `n` in
front of the accumulator. -/
theorem toDigitsCore_eq (n : Nat) : ∀ (fuel : Nat) (ds : List Char), n < fuel →
    Nat.toDigitsCore 10 fuel n ds = Nat.toDigits 10 n ++ ds := by
  induction n using Nat.strong_induction_on with
  | _ n ih =>
    intro fuel ds hf
    cases fuel with
    | zero => omega
    | succ f =>
      unfold Nat.toDigits
      simp only [Nat.toDigitsCore]
      by_cases h0 : n / 10 = 0
      · simp [h0]
      · simp only [h0, if_false]
        rw [ih (n / 10) (by omega) f _ (by omega), ih (n / 10) (by omega) n _ (by omega)]
        simp

/-- One digit. -/
theorem toDigits_small (n : Nat) (h : n < 10) : Nat.toDigits 10 n = [Nat.digitChar n] := by
  unfold Nat.toDigits
  simp only [Nat.toDigitsCore]
  have h0 : n / 10 = 0 := by omega
  have h1 : n % 10 = n := by omega
  simp [h0, h1]

/-- The last digit and the digits before it. -/
theorem toDigits_step (n : Nat) (h : 10 ≤ n) :
    Nat.toDigits 10 n = Nat.toDigits 10 (n / 10) ++ [Nat.digitChar (n % 10)] := by
  conv => lhs; unfold Nat.toDigits
  simp only [Nat.toDigitsCore]
  have h0 : n / 10 ≠ 0 := by omega
  simp only [h0, if_false]
  rw [toDigitsCore_eq (n / 10) n _ (by omega)]

/-- The digit characters. -/
theorem digitChar_facts : ∀ m < 10,
    (Nat.digitChar m).toNat = 48 + m ∧ Nat.digitChar m ∈ fmt.decimalDigits ∧
    Nat.digitChar m = Gregorian.digit m := by
  decide

/-- A decimal digit is no space, no line end and no sign. -/
theorem digit_plain : ∀ c ∈ fmt.decimalDigits,
    c ≠ '\r' ∧ c ≠ '\n' ∧ fmt.isSpace c = false ∧ fmt.sign.contains c = false ∧
    c ≠ '+' ∧ c ≠ '-' := by
  decide

theorem digitsValue_append (l : List Char) (c : Char) :
    fmt.digitsValue (l ++ [c]) = 10 * fmt.digitsValue l + (c.toNat - 48) := by
  simp [fmt.digitsValue, List.foldl_append]

/-- The decimal digits of `n` are digits, at least one, and their value is `n`. -/
theorem toDigits_spec (n : Nat) :
    fmt.digitsValue (Nat.toDigits 10 n) = n ∧ Nat.toDigits 10 n ≠ [] ∧
    ∀ c ∈ Nat.toDigits 10 n, c ∈ fmt.decimalDigits := by
  induction n using Nat.strong_induction_on with
  | _ n ih =>
    by_cases h : n < 10
    · rw [toDigits_small n h]
      obtain ⟨h1, h2, _⟩ := digitChar_facts n h
      refine ⟨?_, by simp, ?_⟩
      · simp [fmt.digitsValue, h1]
      · intro c hc
        rw [List.mem_singleton.1 hc]
        exact h2
    · rw [toDigits_step n (by omega)]
      obtain ⟨h1, h2, _⟩ := digitChar_facts (n % 10) (by omega)
      obtain ⟨i1, _, i3⟩ := ih (n / 10) (by omega)
      refine ⟨?_, by simp, ?_⟩
      · rw [digitsValue_append, i1, h1]
        omega
      · intro c hc
        rcases List.mem_append.1 hc with hc | hc
        · exact i3 c hc
        · rw [List.mem_singleton.1 hc]
          exact h2

/-- The digit loop of the scanner takes a run of digits whole. -/
theorem acceptDigits_all (l : List Char) (h : ∀ c ∈ l, c ∈ fmt.decimalDigits) :
    ∀ buf, fmt.acceptDigits buf l = (buf ++ l, []) := by
  induction l with
  | nil => intro buf; simp [fmt.acceptDigits]
  | cons c rest ih =>
    intro buf
    have hc : fmt.decimalDigits.contains c = true := by
      simpa using h c (List.mem_cons_self _ _)
    simp only [fmt.acceptDigits, hc, if_true]
    rw [ih (fun x hx => h x (List.mem_cons_of_mem _ hx))]
    simp

/-- Space skipping stops at once at a digit. -/
theorem SkipSpace_digit (c : Char) (rest : List Char) (h : c ∈ fmt.decimalDigits) :
    fmt.SkipSpace (c :: rest) = .ok (c :: rest) := by
  obtain ⟨h1, h2, h3, _⟩ := digit_plain c h
  simp [fmt.SkipSpace, h1, h2, h3]

/-- Scanning the decimal rendering of a number that fits an `int64` gives the number. -/
theorem Sscanf_d_toString (n : Nat) (hn : n < 2 ^ 63) :
    fmt.Sscanf_d (toString n) = .ok (n : Int) := by
  obtain ⟨hval, hne, hdig⟩ := toDigits_spec n
  have hdata : (toString n).data = Nat.toDigits 10 n := rfl
  have hlen : (Nat.toDigits 10 n).length ≤ fmt.hugeWid := by
    have := Nat.toDigitsCore_length 10 (by decide) (n + 1) n 19 (by omega) (by decide)
    unfold Nat.toDigits fmt.hugeWid
    omega
  unfold fmt.Sscanf_d
  rw [hdata, List.take_of_length_le hlen]
  cases hl : Nat.toDigits 10 n with
  | nil => exact absurd hl hne
  | cons r rest =>
    rw [hl] at hdig hval
    have hr := hdig r (List.mem_cons_self _ _)
    obtain ⟨_, _, _, hsign, hplus, hminus⟩ := digit_plain r hr
    have hrc : fmt.decimalDigits.contains r = true := by simpa using hr
    rw [SkipSpace_digit r rest hr]
    simp only [fmt.scanInt, SkipSpace_digit r rest hr, hsign, Bool.false_eq_true, if_false,
      hrc, Bool.not_true, List.nil_append]
    rw [acceptDigits_all rest (fun x hx => hdig x (List.mem_cons_of_mem _ hx))]
    have h1 : ¬ (r = '+') := hplus
    have h2 : ¬ (r = '-') := hminus
    simp only [fmt.ParseInt, List.singleton_append, List.head?_cons, Option.some.injEq, h1, h2,
      or_self, if_false, hval, decide_False, Bool.not_false, true_and, Bool.false_eq_true,
      false_and]
    have h3 : ¬ (n ≥ 2 ^ 63) := by omega
    simp [h3]
    omega


/-! ### Zero padding -/

/-- The digit character of the last decimal digit of a number. -/
theorem digitChar_mod (m : Nat) : Nat.digitChar (m % 10) = Gregorian.digit m := by
  rw [(digitChar_facts (m % 10) (by omega)).2.2]
  simp [Gregorian.digit]

/-- The decimal digits of a number, last digit split off. -/
theorem toDigits_digit (n : Nat) :
    Nat.toDigits 10 n =
      if n < 10 then [Gregorian.digit n] else Nat.toDigits 10 (n / 10) ++ [Gregorian.digit n] := by
  by_cases h : n < 10
  · rw [if_pos h, toDigits_small n h]
    have := digitChar_mod n
    rw [Nat.mod_eq_of_lt h] at this
    rw [this]
  · rw [if_neg h, toDigits_step n (by omega), digitChar_mod]

/-- The character `0` is the digit of zero. -/
theorem digit_zero : Gregorian.digit 0 = '0' := by decide

/-- Two-digit fields of `appendInt`. -/
theorem zeroPad_two (u : Nat) (h : u < 100) :
    time.zeroPad 2 u = [Gregorian.digit (u / 10), Gregorian.digit u] := by
  unfold time.zeroPad
  by_cases h1 : u < 10
  · have h0 : u / 10 = 0 := by omega
    rw [toDigits_digit u, if_pos h1, h0, digit_zero]
    rfl
  · rw [toDigits_digit u, if_neg h1, toDigits_digit (u / 10), if_pos (by omega)]
    rfl

/-- Four-digit fields of `appendInt`. -/
theorem zeroPad_four (u : Nat) (h : u < 10000) :
    time.zeroPad 4 u = [Gregorian.digit (u / 1000), Gregorian.digit (u / 100),
      Gregorian.digit (u / 10), Gregorian.digit u] := by
  unfold time.zeroPad
  by_cases h1 : u < 10
  · have h0 : u / 10 = 0 := by omega
    have h00 : u / 100 = 0 := by omega
    have h000 : u / 1000 = 0 := by omega
    rw [toDigits_digit u, if_pos h1, h0, h00, h000, digit_zero]
    rfl
  · by_cases h2 : u < 100
    · have h00 : u / 100 = 0 := by omega
      have h000 : u / 1000 = 0 := by omega
      rw [toDigits_digit u, if_neg h1, toDigits_digit (u / 10), if_pos (by omega), h00, h000,
        digit_zero]
      rfl
    · have e1 : u / 10 / 10 = u / 100 := by omega
      by_cases h3 : u < 1000
      · have h000 : u / 1000 = 0 := by omega
        rw [toDigits_digit u, if_neg h1, toDigits_digit (u / 10), if_neg (by omega), e1,
          toDigits_digit (u / 100), if_pos (by omega), h000, digit_zero]
        rfl
      · have e2 : u / 100 / 10 = u / 1000 := by omega
        rw [toDigits_digit u, if_neg h1, toDigits_digit (u / 10), if_neg (by omega), e1,
          toDigits_digit (u / 100), if_neg (by omega), e2, toDigits_digit (u / 1000),
          if_pos (by omega)]
        rfl

/-- Fields that are not negative are written without a sign. -/
theorem appendInt_natCast (u width : Nat) :
    time.appendInt (u : Int) width = time.zeroPad width u := by
  unfold time.appendInt
  have h : ¬ ((u : Int) < 0) := by omega
  rw [if_neg h, Int.toNat_ofNat]

/-! ### The clock and the leap years -/

/-- Hour, minute and second `absClock` computes are those of the second of the day. -/
theorem absClock_spec (abs : Nat) :
    (time.absClock abs).1 < 24 ∧ (time.absClock abs).2.1 < 60 ∧ (time.absClock abs).2.2 < 60 ∧
    (time.absClock abs).1 * 3600 + (time.absClock abs).2.1 * 60 + (time.absClock abs).2.2 =
      abs % 86400 := by
  simp only [time.absClock, time.secondsPerDay, Nat.reduceMul]
  omega

/-- The leap years of `time` are those of the calendar. -/
theorem isLeap_natCast (y : Nat) : time.isLeap (y : Int) = Gregorian.isLeapYear y := by
  have h4 : ((y : Int) % 4 = 0) ↔ y % 4 = 0 := by omega
  have h100 : ((y : Int) % 100 = 0) ↔ y % 100 = 0 := by omega
  have h400 : ((y : Int) % 400 = 0) ↔ y % 400 = 0 := by omega
  unfold time.isLeap Gregorian.isLeapYear
  rw [Bool.eq_iff_iff]
  simp [h4, h100, h400]

/-- The absolute second count of an instant that is not before 1970. -/
theorem absOfUnix_natCast (n : Nat) (hn : n ≤ 253402300799) :
    time.absOfUnix (n : Int) = n + 9223372028715321600 := by
  unfold time.absOfUnix time.unixToInternal time.internalToAbsolute
  norm_num
  omega

/-- The month length is at most 31. -/
theorem monthLength_le (leap : Bool) (m : Nat) : Gregorian.monthLength leap m ≤ 31 := by
  unfold Gregorian.monthLength
  split
  · split <;> omega
  · split <;> omega

/-- Formatting an instant of the years 1970 to 9999 writes the fields of the calendar
date and time of day that is the instant. -/
theorem formatRFC3339_spec (n : Nat) (hn : n ≤ 253402300799) :
    ∃ y mo d h mi s : Nat,
      time.formatRFC3339 (n : Int) = Gregorian.iso8601 y mo d h mi s ∧ y ≤ 9999 ∧
      Gregorian.IsCivil y mo d h mi s ∧ Gregorian.unixSeconds y mo d h mi s = n := by
  obtain ⟨k, yday, hyd, hk, hyl, hsum⟩ := absYearDay_spec n hn
  obtain ⟨hh, hmi, hs, hclock⟩ := absClock_spec (n + 9223372028715321600)
  have hlt : yday < 366 := by
    unfold Gregorian.daysInYear at hyl
    split at hyl <;> omega
  have hleap : Gregorian.isLeapYear (1970 + k) = true ∨ yday < 365 := by
    unfold Gregorian.daysInYear at hyl
    by_cases hl : Gregorian.isLeapYear (1970 + k) = true
    · exact Or.inl hl
    · rw [if_neg hl] at hyl
      exact Or.inr hyl
  obtain ⟨hm1, hm2, hd1, hd2, hmd⟩ :=
    monthDay_spec (Gregorian.isLeapYear (1970 + k)) yday hlt hleap
  have hd3 := monthLength_le (Gregorian.isLeapYear (1970 + k))
    (time.monthDay (Gregorian.isLeapYear (1970 + k)) yday).1
  refine ⟨1970 + k, (time.monthDay (Gregorian.isLeapYear (1970 + k)) yday).1,
    (time.monthDay (Gregorian.isLeapYear (1970 + k)) yday).2,
    (time.absClock (n + 9223372028715321600)).1,
    (time.absClock (n + 9223372028715321600)).2.1,
    (time.absClock (n + 9223372028715321600)).2.2, ?_, hk, ?_, ?_⟩
  · simp only [time.formatRFC3339, time.absDate, absOfUnix_natCast n hn, hyd, isLeap_natCast,
      appendInt_natCast]
    rw [zeroPad_four _ (by omega), zeroPad_two _ (by omega), zeroPad_two _ (by omega),
      zeroPad_two _ (by omega), zeroPad_two _ (by omega), zeroPad_two _ (by omega)]
    rfl
  · exact ⟨by omega, hm1, hm2, hd1, hd2, hh, hmi, hs⟩
  · unfold Gregorian.unixSeconds Gregorian.daysToMonth
    have hk0 : 1970 + k - 1970 = k := by omega
    rw [hk0]
    omega

/-- C6. For every parseable URL whose `expire` parameter is the decimal rendering of an
integer `n` with `0 ≤ n ≤ 253402300799`, `ExtractExpiryParameter` returns, with a nil
error, the text `YYYY-MM-DDThh:mm:ssZ` of the proleptic Gregorian date and time of day
that is `n` seconds after 1970-01-01T00:00:00Z. -/
theorem ExtractExpiryParameter_formats_instant {W : Type} (env : Env W) (longURL : String)
    (parsedURL : URL) (n : Nat) (hp : env.urlParse longURL = .ok parsedURL)
    (hq : Values.Get parsedURL.Query "expire" = toString n) (hn : n ≤ 253402300799) :
    ∃ y mo d h mi s : Nat,
      ExtractExpiryParameter env longURL = (Gregorian.iso8601 y mo d h mi s, none) ∧
      y ≤ 9999 ∧ Gregorian.IsCivil y mo d h mi s ∧ Gregorian.unixSeconds y mo d h mi s = n := by
  obtain ⟨y, mo, d, h, mi, s, hfmt, hy, hcivil, hunix⟩ := formatRFC3339_spec n hn
  refine ⟨y, mo, d, h, mi, s, ?_, hy, hcivil, hunix⟩
  have hne : toString n ≠ "" := by
    intro h0
    have hdata : (toString n).data = Nat.toDigits 10 n := rfl
    rw [h0] at hdata
    exact (toDigits_spec n).2.1 hdata.symm
  have hscan := Sscanf_d_toString n (by omega)
  simp only [ExtractExpiryParameter, hp, hq, hne, if_false, hscan, hfmt]

/-- C6 at `expire=1700000000`, which is 2023-11-14T22:13:20Z. -/
theorem ExtractExpiryParameter_formats_instant_witness :
    ExtractExpiryParameter (exampleEnv (fun _ => 200) "")
      "https://cdn.example/v?itag=18&expire=1700000000" = ("2023-11-14T22:13:20Z", none) ∧
    Gregorian.iso8601 2023 11 14 22 13 20 = "2023-11-14T22:13:20Z" ∧
    Gregorian.unixSeconds 2023 11 14 22 13 20 = 1700000000 ∧
    ∃ y mo d h mi s : Nat,
      ExtractExpiryParameter (exampleEnv (fun _ => 200) "")
        "https://cdn.example/v?itag=18&expire=1700000000" =
        (Gregorian.iso8601 y mo d h mi s, none) ∧
      y ≤ 9999 ∧ Gregorian.IsCivil y mo d h mi s ∧
      Gregorian.unixSeconds y mo d h mi s = 1700000000 :=
  ⟨rfl, by decide, by decide,
    ExtractExpiryParameter_formats_instant (exampleEnv (fun _ => 200) "")
      "https://cdn.example/v?itag=18&expire=1700000000" _ 1700000000 rfl rfl (by decide)⟩

/-! ## Further properties of the handlers, the validator and the expiry extractor -/

/-- X1. `CheckEndpoint` rejects a URL whose scheme is neither `http` nor `https` with the
error `unsupported URL scheme: <scheme>` and sends no request: the outside world is left
as it was. -/
theorem CheckEndpoint_unsupported_scheme {W : Type} (env : Env W) (endpoint : String) (w : W)
    (parsedURL : URL) (hp : env.urlParse endpoint = .ok parsedURL)
    (h1 : parsedURL.Scheme ≠ "http") (h2 : parsedURL.Scheme ≠ "https") :
    CheckEndpoint env endpoint w = (some ("unsupported URL scheme: " ++ parsedURL.Scheme), w) := by
  simp [CheckEndpoint, hp, h1, h2]

/-- X1 at an `ftp` URL. -/
theorem CheckEndpoint_unsupported_scheme_witness :
    CheckEndpoint (exampleEnv (fun _ => 200) "") "ftp://files.example/v" () =
      (some "unsupported URL scheme: ftp", ()) :=
  CheckEndpoint_unsupported_scheme (exampleEnv (fun _ => 200) "") "ftp://files.example/v" ()
    _ rfl (by decide) (by decide)

/-- X2. A `POST /video` request that misses the cache, for which a retriever resolves an
endpoint, expiry extraction succeeds, the shorten request is built and the shortener
accepts it, is answered 200 with the JSON object `shortened-url: <short URL>`; the
collaborators are invoked in the order existence check, retrievers, expiry extraction,
request building, shortening. -/
theorem video_request_resolves_and_shortens {W : Type} (env : Env W)
    (vs : VideoEndpointService W) (r : Request) (params : VideoParameters) (s : Sys W)
    (endpoint expiration short : String) (req : shlinkRequest)
    (hm : r.Method = "POST") (hd : env.decodeVideoParameters r.Body = .ok params)
    (hc : (vs.urlshortener.CheckIfShortenedURLExists env params.ID s.world).1 = (false, none))
    (hr : (vs.callRetrievers params
      { world := (vs.urlshortener.CheckIfShortenedURLExists env params.ID s.world).2,
        calls := s.calls ++ [Call.CheckIfShortenedURLExists params.ID] }).1 = (endpoint, none))
    (hx : ExtractExpiryParameter env endpoint = (expiration, none))
    (hb : vs.urlshortener.ShortLinkURLRequest env endpoint params.ID expiration = (req, none))
    (hs : (vs.urlshortener.ShortenUrl env req (vs.callRetrievers params
      { world := (vs.urlshortener.CheckIfShortenedURLExists env params.ID s.world).2,
        calls := s.calls ++ [Call.CheckIfShortenedURLExists params.ID] }).2.world).1 =
        (short, none)) :
    (videoRequestHandler env vs r ResponseWriter.fresh s).1.status = 200 ∧
    (videoRequestHandler env vs r ResponseWriter.fresh s).1.body =
      "\x7b\"shortened-url\":" ++ jsonString env.jsonShortEscapes short ++ "\x7d\n" ∧
    (videoRequestHandler env vs r ResponseWriter.fresh s).2.calls =
      (vs.callRetrievers params
        { world := (vs.urlshortener.CheckIfShortenedURLExists env params.ID s.world).2,
          calls := s.calls ++ [Call.CheckIfShortenedURLExists params.ID] }).2.calls ++
      [Call.ExtractExpiryParameter endpoint,
       Call.ShortLinkURLRequest endpoint params.ID expiration, Call.ShortenUrl req] := by
  have h1 : (vs.urlshortener.CheckIfShortenedURLExists env params.ID s.world).1.1 = false := by
    rw [hc]
  have h2 : (vs.urlshortener.CheckIfShortenedURLExists env params.ID s.world).1.2 = none := by
    rw [hc]
  have h3 : (vs.callRetrievers params
      { world := (vs.urlshortener.CheckIfShortenedURLExists env params.ID s.world).2,
        calls := s.calls ++ [Call.CheckIfShortenedURLExists params.ID] }).1.2 = none := by
    rw [hr]
  have h4 : (vs.callRetrievers params
      { world := (vs.urlshortener.CheckIfShortenedURLExists env params.ID s.world).2,
        calls := s.calls ++ [Call.CheckIfShortenedURLExists params.ID] }).1.1 = endpoint := by
    rw [hr]
  have h5 : (vs.urlshortener.ShortenUrl env req (vs.callRetrievers params
      { world := (vs.urlshortener.CheckIfShortenedURLExists env params.ID s.world).2,
        calls := s.calls ++ [Call.CheckIfShortenedURLExists params.ID] }).2.world).1.2 = none := by
    rw [hs]
  have h6 : (vs.urlshortener.ShortenUrl env req (vs.callRetrievers params
      { world := (vs.urlshortener.CheckIfShortenedURLExists env params.ID s.world).2,
        calls := s.calls ++ [Call.CheckIfShortenedURLExists params.ID] }).2.world).1.1 = short := by
    rw [hs]
  simp only [videoRequestHandler, hm, hd, Sys.record, h1, h2, h3, h4, hx, hb, h5, h6, ne_eq,
    not_true_eq_false, if_false, Bool.false_eq_true]
  refine ⟨?_, ?_, ?_⟩
  · simp [sendShortenedEndpointToClient, ResponseWriter.fresh, ResponseWriter.WriteHeader,
      ResponseWriter.Write]
  · simp only [sendShortenedEndpointToClient, ResponseWriter.fresh, ResponseWriter.WriteHeader,
      ResponseWriter.Write, encodeMap1, jsonString_key]
    simp only [Bool.false_eq_true, if_false, String.append_assoc]
    rfl
  · simp

/-- X2 at the id `xyz`, one retriever answering an endpoint with `expire=1700000000`. -/
theorem video_request_resolves_and_shortens_witness :
    (videoRequestHandler
      (exampleEnv (fun m => if m = "GET" then 404 else 200)
        "\x7b\"shortUrl\":\"https://sho.rt/xyz\"\x7d")
      ⟨[answeringRetriever "https://cdn.example/v?itag=18&expire=1700000000"], exampleShortener⟩
      ⟨"POST", "/video", [], "\x7b\"id\":\"xyz\"\x7d"⟩ ResponseWriter.fresh ⟨(), []⟩).1.status
      = 200 ∧
    (videoRequestHandler
      (exampleEnv (fun m => if m = "GET" then 404 else 200)
        "\x7b\"shortUrl\":\"https://sho.rt/xyz\"\x7d")
      ⟨[answeringRetriever "https://cdn.example/v?itag=18&expire=1700000000"], exampleShortener⟩
      ⟨"POST", "/video", [], "\x7b\"id\":\"xyz\"\x7d"⟩ ResponseWriter.fresh ⟨(), []⟩).1.body
      = "\x7b\"shortened-url\":\"https://sho.rt/xyz\"\x7d\n" ∧
    (videoRequestHandler
      (exampleEnv (fun m => if m = "GET" then 404 else 200)
        "\x7b\"shortUrl\":\"https://sho.rt/xyz\"\x7d")
      ⟨[answeringRetriever "https://cdn.example/v?itag=18&expire=1700000000"], exampleShortener⟩
      ⟨"POST", "/video", [], "\x7b\"id\":\"xyz\"\x7d"⟩ ResponseWriter.fresh ⟨(), []⟩).2.calls
      = [Call.CheckIfShortenedURLExists "xyz", Call.GetVideoEndpoint 0 ⟨"xyz"⟩,
         Call.ExtractExpiryParameter "https://cdn.example/v?itag=18&expire=1700000000",
         Call.ShortLinkURLRequest "https://cdn.example/v?itag=18&expire=1700000000" "xyz"
           "2023-11-14T22:13:20Z",
         Call.ShortenUrl ⟨"https://cdn.example/v?itag=18&expire=1700000000", "xyz",
           "2023-11-14T22:13:20Z", "sho.rt"⟩] :=
  video_request_resolves_and_shortens
    (exampleEnv (fun m => if m = "GET" then 404 else 200)
      "\x7b\"shortUrl\":\"https://sho.rt/xyz\"\x7d")
    ⟨[answeringRetriever "https://cdn.example/v?itag=18&expire=1700000000"], exampleShortener⟩
    ⟨"POST", "/video", [], "\x7b\"id\":\"xyz\"\x7d"⟩ ⟨"xyz"⟩ ⟨(), []⟩
    "https://cdn.example/v?itag=18&expire=1700000000" "2023-11-14T22:13:20Z"
    "https://sho.rt/xyz"
    ⟨"https://cdn.example/v?itag=18&expire=1700000000", "xyz", "2023-11-14T22:13:20Z", "sho.rt"⟩
    rfl rfl rfl rfl rfl rfl rfl

/-- X3. Both handlers answer a request whose method is not `POST` with status 405 and a
`POST` request whose body does not decode with status 400, and invoke no collaborator. -/
theorem handlers_reject_bad_requests {W : Type} (env : Env W) :
    (∀ (vs : VideoEndpointService W) (r : Request) (s : Sys W), r.Method ≠ "POST" →
      (videoRequestHandler env vs r ResponseWriter.fresh s).1.status = 405 ∧
      (videoRequestHandler env vs r ResponseWriter.fresh s).1.body = "Invalid request method\n" ∧
      (videoRequestHandler env vs r ResponseWriter.fresh s).2 = s) ∧
    (∀ (vs : VideoEndpointService W) (r : Request) (s : Sys W) (e : String),
      r.Method = "POST" → env.decodeVideoParameters r.Body = .error e →
      (videoRequestHandler env vs r ResponseWriter.fresh s).1.status = 400 ∧
      (videoRequestHandler env vs r ResponseWriter.fresh s).1.body = "Invalid request body\n" ∧
      (videoRequestHandler env vs r ResponseWriter.fresh s).2 = s) ∧
    (∀ (sfs : SearchFetcherService W) (r : Request) (s : Sys W), r.Method ≠ "POST" →
      (searchVideoHandler env sfs r ResponseWriter.fresh s).1.status = 405 ∧
      (searchVideoHandler env sfs r ResponseWriter.fresh s).1.body = "Invalid request method\n" ∧
      (searchVideoHandler env sfs r ResponseWriter.fresh s).2 = s) ∧
    (∀ (sfs : SearchFetcherService W) (r : Request) (s : Sys W) (e : String),
      r.Method = "POST" → env.decodeSearchQuery r.Body = .error e →
      (searchVideoHandler env sfs r ResponseWriter.fresh s).1.status = 400 ∧
      (searchVideoHandler env sfs r ResponseWriter.fresh s).1.body = "Invalid request body\n" ∧
      (searchVideoHandler env sfs r ResponseWriter.fresh s).2 = s) := by
  refine ⟨?_, ?_, ?_, ?_⟩
  · intro vs r s hm
    simp only [videoRequestHandler, hm, ne_eq, not_false_eq_true, if_true]
    exact ⟨(Error_fresh _ _).1, (Error_fresh _ _).2.1, trivial⟩
  · intro vs r s e hm hd
    simp only [videoRequestHandler, hm, hd, ne_eq, not_true_eq_false, if_false]
    exact ⟨(Error_fresh _ _).1, (Error_fresh _ _).2.1, trivial⟩
  · intro sfs r s hm
    simp only [searchVideoHandler, hm, ne_eq, not_false_eq_true, if_true]
    exact ⟨(Error_fresh _ _).1, (Error_fresh _ _).2.1, trivial⟩
  · intro sfs r s e hm hd
    simp only [searchVideoHandler, hm, hd, ne_eq, not_true_eq_false, if_false]
    exact ⟨(Error_fresh _ _).1, (Error_fresh _ _).2.1, trivial⟩

/-- X3 at a `GET /video` request. -/
theorem handlers_reject_bad_requests_witness :
    (videoRequestHandler (exampleEnv (fun _ => 200) "")
      ⟨[answeringRetriever "https://cdn.example/v"], exampleShortener⟩
      ⟨"GET", "/video", [], ""⟩ ResponseWriter.fresh ⟨(), []⟩).1.status = 405 :=
  ((handlers_reject_bad_requests (exampleEnv (fun _ => 200) "")).1
    ⟨[answeringRetriever "https://cdn.example/v"], exampleShortener⟩
    ⟨"GET", "/video", [], ""⟩ ⟨(), []⟩ (by decide)).1

/-- The digit loop of the scanner stops at the first rune that is no digit. -/
theorem acceptDigits_run (l more : List Char) (h : ∀ c ∈ l, c ∈ fmt.decimalDigits)
    (hm : ∀ c, more.head? = some c → c ∉ fmt.decimalDigits) :
    ∀ buf, fmt.acceptDigits buf (l ++ more) = (buf ++ l, more) := by
  induction l with
  | nil =>
    intro buf
    cases more with
    | nil => simp [fmt.acceptDigits]
    | cons c rest =>
      have hc : ¬ (c ∈ fmt.decimalDigits) := hm c rfl
      simp [fmt.acceptDigits, hc]
  | cons c rest ih =>
    intro buf
    have hc : fmt.decimalDigits.contains c = true := by
      simpa using h c (List.mem_cons_self _ _)
    simp only [List.cons_append, fmt.acceptDigits, hc, if_true]
    change fmt.acceptDigits (buf ++ [c]) (rest ++ more) = _
    rw [ih (fun x hx => h x (List.mem_cons_of_mem _ hx))]
    simp

/-- Scanning the decimal rendering of a number that fits an `int64`, followed by text
that does not go on with a digit, gives the number. -/
theorem Sscanf_d_toString_append (n : Nat) (tail : String) (hn : n < 2 ^ 63)
    (ht : ∀ c, tail.data.head? = some c → c ∉ fmt.decimalDigits) :
    fmt.Sscanf_d (toString n ++ tail) = .ok (n : Int) := by
  obtain ⟨hval, hne, hdig⟩ := toDigits_spec n
  have hdata : (toString n ++ tail).data = Nat.toDigits 10 n ++ tail.data := rfl
  have hlen : (Nat.toDigits 10 n).length < fmt.hugeWid := by
    have := Nat.toDigitsCore_length 10 (by decide) (n + 1) n 19 (by omega) (by decide)
    unfold Nat.toDigits fmt.hugeWid
    omega
  have htake : (Nat.toDigits 10 n ++ tail.data).take fmt.hugeWid =
      Nat.toDigits 10 n ++ tail.data.take (fmt.hugeWid - (Nat.toDigits 10 n).length) := by
    rw [List.take_append_eq_append_take, List.take_of_length_le (by omega)]
  have hhead : ∀ c, (tail.data.take (fmt.hugeWid - (Nat.toDigits 10 n).length)).head? = some c →
      c ∉ fmt.decimalDigits := by
    intro c hc
    apply ht c
    cases htl : tail.data with
    | nil => rw [htl] at hc; simp at hc
    | cons a rest =>
      rw [htl] at hc
      obtain ⟨k, hk⟩ : ∃ k, fmt.hugeWid - (Nat.toDigits 10 n).length = k + 1 :=
        ⟨fmt.hugeWid - (Nat.toDigits 10 n).length - 1, by omega⟩
      rw [hk] at hc
      simpa using hc
  unfold fmt.Sscanf_d
  rw [hdata, htake]
  generalize tail.data.take (fmt.hugeWid - (Nat.toDigits 10 n).length) = more at hhead
  cases hl : Nat.toDigits 10 n with
  | nil => exact absurd hl hne
  | cons r rest =>
    rw [hl] at hdig hval
    have hr := hdig r (List.mem_cons_self _ _)
    obtain ⟨_, _, _, hsign, hplus, hminus⟩ := digit_plain r hr
    have hrc : fmt.decimalDigits.contains r = true := by simpa using hr
    rw [List.cons_append, SkipSpace_digit r _ hr]
    simp only [fmt.scanInt, SkipSpace_digit r _ hr, hsign, Bool.false_eq_true, if_false,
      hrc, Bool.not_true, List.nil_append]
    rw [acceptDigits_run rest more (fun x hx => hdig x (List.mem_cons_of_mem _ hx)) hhead]
    have h1 : ¬ (r = '+') := hplus
    have h2 : ¬ (r = '-') := hminus
    simp only [fmt.ParseInt, List.singleton_append, List.head?_cons, Option.some.injEq, h1, h2,
      or_self, if_false, hval, decide_False, Bool.not_false, true_and, Bool.false_eq_true,
      false_and]
    have h3 : ¬ (n ≥ 2 ^ 63) := by omega
    simp [h3]
    omega

/-- X4. For every parseable URL whose `expire` parameter starts with the decimal rendering
of an integer `n` with `0 ≤ n ≤ 253402300799` and goes on with anything that does not
start with a decimal digit, `ExtractExpiryParameter` returns, with a nil error, the text
`YYYY-MM-DDThh:mm:ssZ` of the instant `n` seconds after the epoch: what follows the
integer is ignored. -/
theorem ExtractExpiryParameter_reads_leading_integer {W : Type} (env : Env W)
    (longURL : String) (parsedURL : URL) (n : Nat) (tail : String)
    (hp : env.urlParse longURL = .ok parsedURL)
    (hq : Values.Get parsedURL.Query "expire" = toString n ++ tail)
    (ht : ∀ c, tail.data.head? = some c → c ∉ fmt.decimalDigits)
    (hn : n ≤ 253402300799) :
    ∃ y mo d h mi s : Nat,
      ExtractExpiryParameter env longURL = (Gregorian.iso8601 y mo d h mi s, none) ∧
      y ≤ 9999 ∧ Gregorian.IsCivil y mo d h mi s ∧ Gregorian.unixSeconds y mo d h mi s = n := by
  obtain ⟨y, mo, d, h, mi, s, hfmt, hy, hcivil, hunix⟩ := formatRFC3339_spec n hn
  refine ⟨y, mo, d, h, mi, s, ?_, hy, hcivil, hunix⟩
  have hne : toString n ++ tail ≠ "" := by
    intro h0
    have hdata : (toString n ++ tail).data = Nat.toDigits 10 n ++ tail.data := rfl
    rw [h0] at hdata
    have : Nat.toDigits 10 n = [] := by
      have h1 : ([] : List Char) = Nat.toDigits 10 n ++ tail.data := hdata
      exact (List.append_eq_nil.1 h1.symm).1
    exact (toDigits_spec n).2.1 this
  have hscan := Sscanf_d_toString_append n tail (by omega) ht
  simp only [ExtractExpiryParameter, hp, hq, hne, if_false, hscan, hfmt]

/-- X4 at `expire=1700000000abc`. -/
theorem ExtractExpiryParameter_reads_leading_integer_witness :
    ∃ y mo d h mi s : Nat,
      ExtractExpiryParameter (exampleEnv (fun _ => 200) "")
        "https://cdn.example/v?expire=1700000000abc" =
        (Gregorian.iso8601 y mo d h mi s, none) ∧
      y ≤ 9999 ∧ Gregorian.IsCivil y mo d h mi s ∧
      Gregorian.unixSeconds y mo d h mi s = 1700000000 :=
  ExtractExpiryParameter_reads_leading_integer (exampleEnv (fun _ => 200) "")
    "https://cdn.example/v?expire=1700000000abc" _ 1700000000 "abc" rfl rfl (by decide)
    (by decide)

end stagetimevr
